import Mathlib

/-!
Verification of the safe dynamic query layer of `sqlite_mcp_server.py`.

The Python source is shallowly embedded: each MCP tool becomes a pure Lean
function over an explicit database model.  The SQLite engine itself is
modelled abstractly where an operation hands it an arbitrary statement
(an `EngineReply`-valued step function), and concretely where the source
builds the statement from validated identifiers (catalog scans, PRAGMAs,
bounded row scans, parameterized inserts).  Every statement an operation
submits to the engine is recorded in a trace of `Stmt` values, which keep
the identifiers spliced into the raw statement text separate from the
values passed through the engine's bound-parameter mechanism.
-/

namespace SqliteMcp

/-! ### Python string primitives

Faithful (ASCII) models of the `str` operations the source relies on:
`str.strip`, `str.lower`, `str.upper`, `str.startswith`, and the infix
containment test `needle in haystack`. -/

/-- Characters removed by Python's `str.strip()`:
space, tab, newline, carriage return, vertical tab, form feed. -/
def pyIsSpace (c : Char) : Bool :=
  c == ' ' || c == '\t' || c == '\n' || c == '\r' || c == Char.ofNat 11 || c == Char.ofNat 12

/-- ASCII lower-casing of one character, as `str.lower` does on ASCII input. -/
def pyLowerChar (c : Char) : Char :=
  if 'A' ≤ c ∧ c ≤ 'Z' then Char.ofNat (c.toNat + 32) else c

/-- ASCII upper-casing of one character, as `str.upper` does on ASCII input. -/
def pyUpperChar (c : Char) : Char :=
  if 'a' ≤ c ∧ c ≤ 'z' then Char.ofNat (c.toNat - 32) else c

/-- Python `s.lower()` (ASCII fragment). -/
def pyLower (s : String) : String :=
  ⟨s.toList.map pyLowerChar⟩

/-- Python `s.upper()` (ASCII fragment). -/
def pyUpper (s : String) : String :=
  ⟨s.toList.map pyUpperChar⟩

/-- Python `s.strip()`: drop whitespace from both ends. -/
def pyStrip (s : String) : String :=
  ⟨((s.toList.dropWhile pyIsSpace).reverse.dropWhile pyIsSpace).reverse⟩

/-- Python `s.startswith(pre)`. -/
def pyStartswith (s pre : String) : Bool :=
  pre.toList.isPrefixOf s.toList

/-- Substring search: does `needle` occur as a contiguous run in `hay`? -/
def listInfixOf (needle : List Char) : List Char → Bool
  | [] => needle.isEmpty
  | c :: rest => needle.isPrefixOf (c :: rest) || listInfixOf needle rest

/-- Python `needle in haystack` on strings: substring containment. -/
def pyIn (needle haystack : String) : Bool :=
  listInfixOf needle.toList haystack.toList

/-- The leading maximal run of non-whitespace characters of a statement,
i.e. its first whitespace-delimited word.  This is the formal reading of
the specification's "leading non-whitespace keyword". -/
def leadingWord (s : String) : String :=
  ⟨(s.toList.dropWhile pyIsSpace).takeWhile (fun c => !(pyIsSpace c))⟩

/-- The source's read/write classification, used verbatim by `execute_sql`
(line 192) and `query_database` (line 1174):
`sql.strip().upper().startswith("SELECT")`. -/
def is_select (sql : String) : Bool :=
  pyStartswith (pyUpper (pyStrip sql)) "SELECT"

/-! ### Data model

A snapshot of an SQLite database as the server observes it through the
system catalog: tables with ordered columns and rows, plus the index and
trigger entries of `sqlite_master`. -/

/-- A dynamically typed SQLite value (the fragment the claims exercise). -/
inductive Value where
  | null
  | int (n : Int)
  | text (s : String)
deriving Repr, DecidableEq

/-- One `PRAGMA table_info` row: column name, declared type, NOT NULL flag,
primary-key flag. -/
structure Column where
  name : String
  type : String
  notnull : Bool
  pk : Bool
deriving Repr, DecidableEq

/-- A table: its name, ordered column descriptors, and stored rows
(each row ordered as the columns are). -/
structure Table where
  name : String
  columns : List Column
  rows : List (List Value)
deriving Repr, DecidableEq

/-- An index entry.  `inMaster` distinguishes indexes listed in
`sqlite_master` from the engine's internal auto-indexes, which
`PRAGMA index_list` reports but the catalog does not. -/
structure IndexInfo where
  name : String
  tbl : String
  inMaster : Bool
  sql : Option String
deriving Repr, DecidableEq

/-- A trigger entry of `sqlite_master`. -/
structure TriggerInfo where
  name : String
  tbl : String
  sql : String
deriving Repr, DecidableEq

/-- The committed database state. -/
structure DB where
  tables : List Table
  indexes : List IndexInfo
  triggers : List TriggerInfo
deriving Repr, DecidableEq

/-- `SELECT name FROM sqlite_master WHERE type='table'`. -/
def DB.tableNames (db : DB) : List String :=
  db.tables.map Table.name

/-- Catalog lookup of a table by exact name (the engine's default
case-sensitive exact comparison on `sqlite_master.name`). -/
def DB.findTable (db : DB) (n : String) : Option Table :=
  db.tables.find? (fun t => t.name == n)

/-- `CREATE TABLE "tname" ("c1" TEXT, ...)`: appends a fresh table whose
columns are all typed `TEXT`, as the import path creates them. -/
def DB.addTable (db : DB) (tname : String) (cols : List String) : DB :=
  { db with tables :=
      db.tables ++ [⟨tname, cols.map (fun c => ⟨c, "TEXT", false, false⟩), []⟩] }

/-- The value column `c` receives from `INSERT INTO t (cols) VALUES (?...)`:
the bound value named for it, or NULL (the model of the engine's default
handling) when the insert does not name it. -/
def insertedValue (cols : List String) (vals : List Value) (c : Column) : Value :=
  match (cols.zip vals).find? (fun p => p.1 == c.name) with
  | some p => p.2
  | none => Value.null

/-- A NOT NULL constraint failure: some NOT NULL column would receive NULL.
A single `INTEGER PRIMARY KEY` column is exempt — SQLite auto-assigns a
rowid there instead of failing. -/
def notNullViolation (tcols : List Column) (cols : List String) (vals : List Value) : Bool :=
  tcols.any (fun c =>
    c.notnull && !(c.pk && c.type == "INTEGER")
      && insertedValue cols vals c == Value.null)

/-- The primary-key projection of a stored row. -/
def pkVals (tcols : List Column) (r : List Value) : List Value :=
  ((tcols.zip r).filter (fun p => p.1.pk)).map Prod.snd

/-- A PRIMARY KEY uniqueness failure: the new row carries a fully non-NULL
key equal to an existing row's key.  (NULL key parts never collide in
SQLite: an `INTEGER PRIMARY KEY` auto-assigns, and NULLs are distinct in
ordinary primary keys.)  `PRAGMA table_info` exposes no other uniqueness
information, so NOT NULL and PRIMARY KEY are exactly the constraints the
data model can and does check. -/
def pkViolation (t : Table) (cols : List String) (vals : List Value) : Bool :=
  let np := pkVals t.columns (t.columns.map (insertedValue cols vals))
  !np.isEmpty && np.all (fun v => !(v == Value.null))
    && t.rows.any (fun r => pkVals t.columns r == np)

/-- Does the engine reject `INSERT INTO t (cols) VALUES (?...)` with an
`IntegrityError`? -/
def Table.insertViolates (t : Table) (cols : List String) (vals : List Value) : Bool :=
  notNullViolation t.columns cols vals || pkViolation t cols vals

/-- The state effect of a succeeding insert on one table: the new row
holds each named value at its column's position and NULL elsewhere. -/
def Table.insertRow (t : Table) (cols : List String) (vals : List Value) : Table :=
  { t with rows := t.rows ++ [t.columns.map (insertedValue cols vals)] }

/-- The database with the named table's row list extended by one insert
(the pure state effect, applied only when the insert succeeds). -/
def DB.withInserted (db : DB) (tname : String) (cols : List String) (vals : List Value) : DB :=
  { db with tables := db.tables.map (fun tb => if tb.name == tname then tb.insertRow cols vals else tb) }

/-- Effect of a parameterized insert on the database: `none` models the
`sqlite3.Error` the engine raises — no such table, or an `IntegrityError`
per `Table.insertViolates` — which the import loop does not survive. -/
def DB.insertInto (db : DB) (tname : String) (cols : List String) (vals : List Value) :
    Option DB :=
  match db.findTable tname with
  | none => none
  | some t =>
      if t.insertViolates cols vals then none
      else some (db.withInserted tname cols vals)

/-- Number of stored rows of a table (0 when the table is absent). -/
def DB.rowCountOf (db : DB) (tname : String) : Nat :=
  match db.findTable tname with
  | some t => t.rows.length
  | none => 0

/-! ### Statements submitted to the engine

Each constructor stands for one `cursor.execute(...)` call of the source.
Caller-influenced strings appear either in an *interpolated* position (they
become part of the raw statement text, e.g. inside `PRAGMA table_info(...)`)
or as *bound parameters* (the `?` placeholders of the parameterized catalog
checks and of the import inserts).  `Stmt.rawText` renders the raw text that
reaches the engine; `Stmt.interpolated` lists exactly the strings that were
spliced into that text, and `Stmt.boundParams` the values passed separately
through the binding mechanism. -/

inductive Stmt where
  /-- `SELECT name FROM sqlite_master WHERE type='table' AND name=?`
  with the candidate name as bound parameter — the validation gate. -/
  | masterTableByName (param : String)
  /-- `SELECT name FROM sqlite_master WHERE type='table';` -/
  | masterListTables
  /-- `SELECT name FROM sqlite_master WHERE type='index' AND name=?`. -/
  | masterIndexByName (param : String)
  /-- `SELECT * FROM sqlite_master WHERE type='<kind>' AND tbl_name=?`
  (`kind` is a code literal, `'index'` or `'trigger'`). -/
  | masterByTbl (kind : String) (param : String)
  /-- `SELECT * FROM sqlite_master WHERE type='<kind>'`. -/
  | masterAll (kind : String)
  /-- `PRAGMA table_info(`t`)`: `t` interpolated after validation. -/
  | pragmaTableInfo (table : String)
  /-- `PRAGMA index_list(`t`)`. -/
  | pragmaIndexList (table : String)
  /-- `PRAGMA index_info(`i`)`. -/
  | pragmaIndexInfo (index : String)
  /-- `PRAGMA foreign_key_list(`t`)`. -/
  | pragmaForeignKeys (table : String)
  /-- `SELECT * FROM `t`` with an optional integer `LIMIT`. -/
  | selectAll (table : String) (limit : Option Int)
  /-- `SELECT COUNT(*) FROM `t``. -/
  | selectCount (table : String)
  /-- `SELECT * FROM sqlite_stat1 WHERE tbl=?`. -/
  | stat1ByTbl (param : String)
  /-- `SELECT * FROM sqlite_stat1 WHERE idx=?`. -/
  | stat1ByIdx (param : String)
  /-- `INSERT INTO "t" ("c1", ...) VALUES (?, ...)` with the row's values
  as bound parameters. -/
  | insertRow (table : String) (cols : List String) (params : List Value)
  /-- `CREATE TABLE "t" ("c1" TEXT, ...)`. -/
  | createTable (table : String) (cols : List String)
  /-- The query `smart_query` assembles from a catalog table name and
  fixed predicate/limit fragments. -/
  | smartSelect (table : String) (text : String)
deriving Repr, DecidableEq

/-- The raw statement text each `Stmt` stands for (`?` marks a bound
parameter; bound parameters never appear in this text). -/
def Stmt.rawText : Stmt → String
  | .masterTableByName _ => "SELECT name FROM sqlite_master WHERE type='table' AND name=?"
  | .masterListTables => "SELECT name FROM sqlite_master WHERE type='table';"
  | .masterIndexByName _ => "SELECT name FROM sqlite_master WHERE type='index' AND name=?"
  | .masterByTbl kind _ => "SELECT * FROM sqlite_master WHERE type='" ++ kind ++ "' AND tbl_name=?"
  | .masterAll kind => "SELECT * FROM sqlite_master WHERE type='" ++ kind ++ "'"
  | .pragmaTableInfo t => "PRAGMA table_info(`" ++ t ++ "`)"
  | .pragmaIndexList t => "PRAGMA index_list(`" ++ t ++ "`)"
  | .pragmaIndexInfo i => "PRAGMA index_info(`" ++ i ++ "`)"
  | .pragmaForeignKeys t => "PRAGMA foreign_key_list(`" ++ t ++ "`)"
  | .selectAll t lim =>
      "SELECT * FROM `" ++ t ++ "`" ++
        (match lim with | some n => " LIMIT " ++ toString n | none => "")
  | .selectCount t => "SELECT COUNT(*) FROM `" ++ t ++ "`"
  | .stat1ByTbl _ => "SELECT * FROM sqlite_stat1 WHERE tbl=?"
  | .stat1ByIdx _ => "SELECT * FROM sqlite_stat1 WHERE idx=?"
  | .insertRow t cols _ =>
      "INSERT INTO \"" ++ t ++ "\" (" ++
        String.intercalate ", " (cols.map (fun c => "\"" ++ c ++ "\"")) ++
        ") VALUES (" ++ String.intercalate ", " (cols.map (fun _ => "?")) ++ ")"
  | .createTable t cols =>
      "CREATE TABLE \"" ++ t ++ "\" (" ++
        String.intercalate ", " (cols.map (fun c => "\"" ++ c ++ "\" TEXT")) ++ ")"
  | .smartSelect _ text => text

/-- The caller-influenced strings spliced into the raw statement text
(identifiers and, for the fixed catalog scans, the code-literal kind).
Bound parameters are deliberately excluded: they never reach the text. -/
def Stmt.interpolated : Stmt → List String
  | .masterTableByName _ => []
  | .masterListTables => []
  | .masterIndexByName _ => []
  | .masterByTbl kind _ => [kind]
  | .masterAll kind => [kind]
  | .pragmaTableInfo t => [t]
  | .pragmaIndexList t => [t]
  | .pragmaIndexInfo i => [i]
  | .pragmaForeignKeys t => [t]
  | .selectAll t _ => [t]
  | .selectCount t => [t]
  | .stat1ByTbl _ => []
  | .stat1ByIdx _ => []
  | .insertRow t cols _ => t :: cols
  | .createTable t cols => t :: cols
  | .smartSelect t _ => [t]

/-- The values passed through the engine's bound-parameter mechanism. -/
def Stmt.boundParams : Stmt → List Value
  | .masterTableByName p => [.text p]
  | .masterIndexByName p => [.text p]
  | .masterByTbl _ p => [.text p]
  | .stat1ByTbl p => [.text p]
  | .stat1ByIdx p => [.text p]
  | .insertRow _ _ vals => vals
  | _ => []

/-- `true` iff no statement of the trace interpolates the string `t` into
its raw text. -/
def traceAvoids (tr : List Stmt) (t : String) : Bool :=
  tr.all (fun s => !(s.interpolated.contains t))

/-- Recognizes the insert statements of a trace. -/
def Stmt.isInsert : Stmt → Bool
  | .insertRow .. => true
  | _ => false

/-! ### Results and errors -/

/-- The error kinds the operations surface in their `status: error`
records. -/
inductive OpError where
  /-- Missing/empty required argument, rejected before engine contact. -/
  | invalidInput
  /-- `db_path` absent: `Database path must be provided`. -/
  | missingDbPath
  /-- `Table '<t>' not found.` (no further payload). -/
  | tableNotFound (table : String)
  /-- `Table '<t>' not found.` together with the catalog's current table
  enumeration (only `explain_table` produces this shape). -/
  | tableNotFoundWithList (table : String) (available : List String)
  /-- Unsupported import/export format. -/
  | unsupportedFormat (format : String)
  /-- Import source file absent. -/
  | fileNotFound
  /-- `No matching columns found between the CSV and the table`. -/
  | noMatchingColumns
  /-- `JSON file must contain a list of objects`. -/
  | jsonNotListOfObjects
  /-- `No tables found in database`. -/
  | noTables
  /-- The engine rejected a statement (`sqlite3.Error`). -/
  | engineError
  /-- Any other exception, wrapped (`An unexpected error occurred`). -/
  | unexpected
deriving Repr, DecidableEq

/-- A tool response: the success payload or a structured error. -/
inductive OpResult (α : Type) where
  | ok (payload : α)
  | error (e : OpError)
deriving Repr, DecidableEq

/-- `status == "error"`. -/
def isError {α : Type} : OpResult α → Bool
  | .ok _ => false
  | .error _ => true

/-- The table enumeration a not-found error carries, if any. -/
def OpError.carriedTables : OpError → Option (List String)
  | .tableNotFoundWithList _ l => some l
  | _ => none

/-! ### The abstract engine for caller-supplied statements

`execute_sql` and `query_database` run arbitrary statement text, so their
engine is a parameter: submitting the text (with its bound parameters) to a
database state either raises (`failure`) or yields the new — still
uncommitted — state together with `cursor.rowcount` and the fetchable
rows.  SQLite's `rowcount` is `-1` for statements without a modified-row
count (DDL, and any `SELECT`). -/

inductive EngineReply where
  | failure (msg : String)
  | success (newDb : DB) (rowcount : Int) (cols : List String) (rows : List (List Value))
deriving Repr, DecidableEq

/-- The shape of an execution record: a fetched result set, a
`rows_affected` count, a bare success message, or an error record. -/
inductive ExecResult where
  | rows (cols : List String) (data : List (List Value))
  | affected (n : Int)
  | message
  | error (msg : String)
deriving Repr, DecidableEq

/-- What one `execute_sql` / `query_database` call leaves behind:

* `result` — the returned record;
* `committed` — the durable database state after the call, following
  Python's `sqlite3` context-manager semantics (`with conn:` commits the
  open transaction on normal exit and rolls it back on an exception; it
  does not close the connection);
* `commits` — how many commit operations were applied to an open
  transaction during the call (the context manager's trailing `commit()`
  after the explicit one in the write branch finds no open transaction and
  is a no-op, so it is not counted).
-/
structure ExecOutcome where
  result : ExecResult
  committed : DB
  commits : Nat
deriving Repr, DecidableEq

/-- `execute_sql(sql_query, db_path, parameters)` (source lines 156-223).
A fresh connection is opened on the committed state `db`; the statement is
submitted; the result is classified by `is_select` — the read branch
fetches the rows and performs no commit, the write branch commits once and
reports `rows_affected` when the engine's count is not `-1`, else a bare
message.  Engine failures are caught: the error record is returned and the
context manager rolls the transaction back. -/
def execute_sql (sql_query db_path : String) (parameters : List Value)
    (step : String → List Value → DB → EngineReply) (db : DB) : ExecOutcome :=
  if sql_query = "" then ⟨.error "Invalid sql_query provided.", db, 0⟩
  else if db_path = "" then ⟨.error "Database path must be provided", db, 0⟩
  else
    match step sql_query parameters db with
    | .failure msg => ⟨.error msg, db, 0⟩
    | .success newDb rc cols rows =>
      if is_select sql_query then
        -- read branch: fetchall, no commit in the function body; the
        -- context-manager exit commits whatever transaction is open
        ⟨.rows cols rows, newDb, 0⟩
      else
        -- write branch: conn.commit(), then report the rowcount shape
        ⟨if rc ≠ -1 then .affected rc else .message, newDb, 1⟩

/-- `query_database(sql, db_path)` (source lines 1149-1203).  Identical
classification, but the write branch always returns the engine's
`rows_affected`, with no `-1` special case. -/
def query_database (sql db_path : String)
    (step : String → DB → EngineReply) (db : DB) : ExecOutcome :=
  if sql = "" then ⟨.error "Invalid sql provided.", db, 0⟩
  else if db_path = "" then ⟨.error "Database path must be provided", db, 0⟩
  else
    match step sql db with
    | .failure msg => ⟨.error msg, db, 0⟩
    | .success newDb rc cols rows =>
      if is_select sql then ⟨.rows cols rows, newDb, 0⟩
      else ⟨.affected rc, newDb, 1⟩

/-! ### Connection lifecycle

`with get_db_connection(db_path) as conn:` uses `sqlite3.Connection` as a
context manager.  Per the Python `sqlite3` documentation, that context
manager commits the open transaction when the block exits normally and
rolls it back when it exits with an exception; it neither opens a
transaction nor closes the connection — the connection object is only
released later, by garbage collection.  `ConnEvent` records the connection
operations one request actually performs. -/

inductive ConnEvent where
  | openConn
  | commitTx
  | rollbackTx
  | closeConn
deriving Repr, DecidableEq

/-- `list_tables(db_path)` (source lines 65-101), with its connection
event trace.  `engine_fails` abstracts a `sqlite3.Error` while reading the
catalog (e.g. the file is not a database). -/
def list_tables (db_path : String) (db : DB) (engine_fails : Bool) :
    OpResult (List String) × List ConnEvent :=
  if db_path = "" then (.error .missingDbPath, [])
  else if engine_fails then (.error .engineError, [.openConn, .rollbackTx])
  else (.ok db.tableNames, [.openConn, .commitTx])

/-! ### Catalog operations gated by the identifier validator

Each of these receives a caller-supplied table name, first runs the
parameterized existence check
`SELECT name FROM sqlite_master WHERE type='table' AND name=?`, and only
on success interpolates the (now validated) name into statement text. -/

/-- `list_columns(table_name, db_path)` (source lines 103-154). -/
def list_columns (table_name db_path : String) (db : DB) :
    OpResult (List Column) × List Stmt :=
  if table_name = "" then (.error .invalidInput, [])
  else if db_path = "" then (.error .missingDbPath, [])
  else
    match db.findTable table_name with
    | none => (.error (.tableNotFound table_name), [.masterTableByName table_name])
    | some t =>
        (.ok t.columns, [.masterTableByName table_name, .pragmaTableInfo table_name])

/-- The caller-supplied `limit` argument of `export_data`: absent, an
integer, or a value of some other runtime type (which the
`isinstance(limit, int)` guard rejects). -/
inductive PyLimit where
  | none
  | int (n : Int)
  | notInt
deriving Repr, DecidableEq

/-- The `LIMIT` value `export_data` appends, per
`if limit is not None and isinstance(limit, int) and limit > 0`.  -/
def exportLimit : PyLimit → Option Int
  | .int n => if n > 0 then some n else Option.none
  | _ => Option.none

/-- Payload of a successful export: the header columns and the fetched
data rows (the CSV/JSON serializations both carry exactly these). -/
structure ExportPayload where
  columns : List String
  data : List (List Value)
deriving Repr, DecidableEq

/-- `export_data(table_name, db_path, format, output_path, limit)`
(source lines 271-370).  The `output_path` branches serialize the same
fetched rows, so the model returns those rows directly. -/
def export_data (table_name db_path format : String) (limit : PyLimit) (db : DB) :
    OpResult ExportPayload × List Stmt :=
  if table_name = "" then (.error .invalidInput, [])
  else if db_path = "" then (.error .missingDbPath, [])
  else if !(pyLower format == "csv" || pyLower format == "json") then
    (.error (.unsupportedFormat format), [])
  else
    match db.findTable table_name with
    | none => (.error (.tableNotFound table_name), [.masterTableByName table_name])
    | some t =>
        let lim := exportLimit limit
        let fetched := match lim with
          | some n => t.rows.take n.toNat
          | none => t.rows
        (.ok ⟨t.columns.map Column.name, fetched⟩,
         [.masterTableByName table_name, .selectAll table_name lim])

/-- Payload of `get_table_info` (row count, column descriptors, and the
catalog-validated indexes with their details). -/
structure TableInfoPayload where
  row_count : Nat
  columns : List Column
  indexes : List IndexInfo
  sample : List (List Value)
deriving Repr, DecidableEq

/-- `get_table_info(table_name, db_path)` (source lines 497-598).
`PRAGMA index_list` reports every index including internal auto-indexes;
each reported name is re-validated against `sqlite_master` before being
interpolated into `PRAGMA index_info`. -/
def get_table_info (table_name db_path : String) (db : DB) :
    OpResult TableInfoPayload × List Stmt :=
  if table_name = "" then (.error .invalidInput, [])
  else if db_path = "" then (.error .missingDbPath, [])
  else
    match db.findTable table_name with
    | none => (.error (.tableNotFound table_name), [.masterTableByName table_name])
    | some t =>
        let listed := db.indexes.filter (fun i => i.tbl == table_name)
        let detailed := listed.filter IndexInfo.inMaster
        (.ok ⟨t.rows.length, t.columns, detailed, t.rows.take 5⟩,
         [.masterTableByName table_name, .selectCount table_name,
          .pragmaTableInfo table_name, .pragmaIndexList table_name] ++
         (listed.flatMap (fun i =>
            .masterIndexByName i.name ::
              (if i.inMaster then [.pragmaIndexInfo i.name] else []))) ++
         [.stat1ByTbl table_name, .selectAll table_name (some 5)])

/-- Payload of `show_table`: columns, first five rows, total row count. -/
structure ShowTablePayload where
  columns : List Column
  sample : List (List Value)
  total_rows : Nat
deriving Repr, DecidableEq

/-- `show_table(table_name, db_path)` (source lines 1090-1147). -/
def show_table (table_name db_path : String) (db : DB) :
    OpResult ShowTablePayload × List Stmt :=
  if table_name = "" then (.error .invalidInput, [])
  else if db_path = "" then (.error .missingDbPath, [])
  else
    match db.findTable table_name with
    | none => (.error (.tableNotFound table_name), [.masterTableByName table_name])
    | some t =>
        (.ok ⟨t.columns, t.rows.take 5, t.rows.length⟩,
         [.masterTableByName table_name, .pragmaTableInfo table_name,
          .selectAll table_name (some 5), .selectCount table_name])

/-- `list_indexes(db_path, table_name)` (source lines 816-910).  An empty
filter string is falsy in Python, so it behaves as no filter at all. -/
def list_indexes (db_path : String) (table_name : Option String) (db : DB) :
    OpResult (List IndexInfo) × List Stmt :=
  if db_path = "" then (.error .missingDbPath, [])
  else
    let tfilter := match table_name with
      | some t => if t = "" then Option.none else some t
      | none => Option.none
    match tfilter with
    | some t =>
        if (db.findTable t).isNone then
          (.error (.tableNotFound t), [.masterTableByName t])
        else
          let idxs := db.indexes.filter (fun i => i.inMaster && i.tbl == t)
          (.ok idxs,
           [.masterTableByName t, .masterByTbl "index" t] ++
           idxs.flatMap (fun i =>
             [.masterIndexByName i.name, .pragmaIndexInfo i.name, .stat1ByIdx i.name]))
    | none =>
        let idxs := db.indexes.filter IndexInfo.inMaster
        (.ok idxs,
         [.masterAll "index"] ++
         idxs.flatMap (fun i =>
           [.masterIndexByName i.name, .pragmaIndexInfo i.name, .stat1ByIdx i.name]))

/-- Timing extraction of `list_triggers` (substring probes on the
upper-cased trigger SQL). -/
def triggerTiming (sql : String) : Option String :=
  if pyIn "BEFORE" (pyUpper sql) then some "BEFORE"
  else if pyIn "AFTER" (pyUpper sql) then some "AFTER"
  else if pyIn "INSTEAD OF" (pyUpper sql) then some "INSTEAD OF"
  else none

/-- Event extraction of `list_triggers`. -/
def triggerEvent (sql : String) : Option String :=
  if pyIn "INSERT" (pyUpper sql) then some "INSERT"
  else if pyIn "UPDATE" (pyUpper sql) then some "UPDATE"
  else if pyIn "DELETE" (pyUpper sql) then some "DELETE"
  else none

/-- A formatted trigger record. -/
structure FormattedTrigger where
  name : String
  tbl : String
  sql : String
  timing : Option String
  event : Option String
deriving Repr, DecidableEq

/-- `list_triggers(db_path, table_name)` (source lines 912-1006). -/
def list_triggers (db_path : String) (table_name : Option String) (db : DB) :
    OpResult (List FormattedTrigger) × List Stmt :=
  if db_path = "" then (.error .missingDbPath, [])
  else
    let tfilter := match table_name with
      | some t => if t = "" then Option.none else some t
      | none => Option.none
    let format := fun (tg : TriggerInfo) =>
      FormattedTrigger.mk tg.name tg.tbl tg.sql (triggerTiming tg.sql) (triggerEvent tg.sql)
    match tfilter with
    | some t =>
        if (db.findTable t).isNone then
          (.error (.tableNotFound t), [.masterTableByName t])
        else
          (.ok ((db.triggers.filter (fun tg => tg.tbl == t)).map format),
           [.masterTableByName t, .masterByTbl "trigger" t])
    | none =>
        (.ok (db.triggers.map format), [.masterAll "trigger"])

/-! ### `import_data`

The file's content is supplied pre-parsed: `JsonParse` is what `json.load`
yields (or that it raised, or produced something other than a list of
objects), `CsvParse` what `csv.reader` yields (header row and data rows,
or that the file had no rows at all, in which case `next(csv_reader)`
raises `StopIteration`).  The format string selects which view the
operation consumes, exactly as the source selects the parser. -/

/-- Result of `json.load` on the import file, viewed as a list of objects
(each object an ordered key/value association, as `dict.items()` yields). -/
inductive JsonParse where
  | ok (data : List (List (String × Value)))
  | notList
  | parseError
deriving Repr, DecidableEq

/-- Result of `csv.reader` on the import file: the header row and the data
rows, or an entirely empty file. -/
inductive CsvParse where
  | ok (headers : List String) (rows : List (List String))
  | empty
deriving Repr, DecidableEq

/-- `true` iff the list has no repeated element (the engine rejects
`CREATE TABLE` statements with duplicate column names). -/
def distinctList : List String → Bool
  | [] => true
  | x :: xs => !(xs.contains x) && distinctList xs

/-- The column names `PRAGMA table_info` reports for a table: its live
column set, or the empty list when the table is absent (the PRAGMA returns
no rows then). -/
def existingCols (db : DB) (table_name : String) : List String :=
  match db.findTable table_name with
  | some t => t.columns.map Column.name
  | none => []

/-- The reconciled field mapping of one JSON object: keep exactly the
fields whose names are among the table's columns
(`{k: v for k, v in row_data.items() if k in existing_columns}`). -/
def jsonFd (existing : List String) (row : List (String × Value)) : List (String × Value) :=
  row.filter (fun kv => existing.contains kv.1)

/-- `[(i, col) for i, col in enumerate(headers) if col in existing]`: the
retained (position, header) pairs of a CSV import. -/
def validPairsOf (existing headers : List String) : List (Nat × String) :=
  headers.enum.filter (fun p => existing.contains p.2)

/-- How an insert loop run ends: every row processed (`ok` with the count
and the final uncommitted state), or aborted by a `sqlite3.Error` from a
failed insert, or aborted by a Python `IndexError` on a short CSV row. -/
inductive LoopStop where
  | ok (n : Nat) (db : DB)
  | sqlError
  | indexError
deriving Repr, DecidableEq

/-- The JSON insert loop (source lines 435-447): rows with an empty
reconciled mapping are skipped; every other row is inserted with its
matched field names in the statement text and its values as bound
parameters, and counted.  A failing insert (`IntegrityError`) aborts the
loop — the failed statement was still submitted, so it is in the trace. -/
def jsonLoop (tname : String) (existing : List String) :
    List (List (String × Value)) → DB → LoopStop × List Stmt
  | [], db => (.ok 0 db, [])
  | row :: rest, db =>
    let fd := jsonFd existing row
    if fd.isEmpty then jsonLoop tname existing rest db
    else
      let cols := fd.map Prod.fst
      let vals := fd.map Prod.snd
      let stmt := Stmt.insertRow tname cols vals
      match db.insertInto tname cols vals with
      | none => (.sqlError, [stmt])
      | some db1 =>
        match jsonLoop tname existing rest db1 with
        | (.ok n db2, tr) => (.ok (n + 1) db2, stmt :: tr)
        | (stop, tr) => (stop, stmt :: tr)

/-- `[row[i] for i in idxs]`, failing like Python's `IndexError` when some
index is out of range. -/
def selectIdx (row : List String) : List Nat → Option (List String)
  | [] => some []
  | i :: is =>
    match row.get? i, selectIdx row is with
    | some v, some vs => some (v :: vs)
    | _, _ => none

/-- The CSV insert loop (source lines 475-480): empty rows (blank lines)
are skipped; every other row is inserted with the valid headers in the
statement text and the projected cell values as bound parameters.  A short
row aborts with `IndexError` before a statement is built; a failing insert
aborts with the engine's error after the statement was submitted. -/
def csvLoop (tname : String) (validIdx : List Nat) (validHeaders : List String) :
    List (List String) → DB → LoopStop × List Stmt
  | [], db => (.ok 0 db, [])
  | row :: rest, db =>
    if row.isEmpty then csvLoop tname validIdx validHeaders rest db
    else
      match selectIdx row validIdx with
      | none => (.indexError, [])
      | some vals =>
        let valsV := vals.map Value.text
        let stmt := Stmt.insertRow tname validHeaders valsV
        match db.insertInto tname validHeaders valsV with
        | none => (.sqlError, [stmt])
        | some db1 =>
          match csvLoop tname validIdx validHeaders rest db1 with
          | (.ok n db2, tr) => (.ok (n + 1) db2, stmt :: tr)
          | (stop, tr) => (stop, stmt :: tr)

/-- Shared tail of the JSON branch: read the live columns, run the loop,
then commit — or, when an insert raised, return the engine-error record
while the context manager rolls the transaction back to the committed
state `dbOrig`. -/
def import_insert_json (table_name : String) (db : DB)
    (data : List (List (String × Value))) (pre : List Stmt) (dbOrig : DB) :
    OpResult Nat × DB × List Stmt :=
  let existing := existingCols db table_name
  let pre2 := pre ++ [Stmt.pragmaTableInfo table_name]
  match jsonLoop table_name existing data db with
  | (.ok n db2, tr) => (.ok n, db2, pre2 ++ tr)
  | (.sqlError, tr) => (.error .engineError, dbOrig, pre2 ++ tr)
  | (.indexError, tr) =>
      -- unreachable: the JSON loop never raises IndexError
      (.error .unexpected, dbOrig, pre2 ++ tr)

/-- The JSON import branch, entered after the existence check (source
lines 415-447): parse outcome checks, optional table creation from the
first object's keys, `PRAGMA table_info` for the live column set, then the
insert loop and the final commit. -/
def import_json_branch (table_name : String) (db : DB)
    (table_exists create_table : Bool) (jd : JsonParse) :
    OpResult Nat × DB × List Stmt :=
  let check := [Stmt.masterTableByName table_name]
  match jd with
  | .parseError => (.error .unexpected, db, check)
  | .notList => (.error .jsonNotListOfObjects, db, check)
  | .ok data =>
    if data.isEmpty then (.error .jsonNotListOfObjects, db, check)
    else if !table_exists && create_table then
      let cols := (data.headD []).map Prod.fst
      if cols.isEmpty || !(distinctList cols) then
        -- the engine rejects CREATE TABLE with no or duplicate columns;
        -- the exception is caught and the transaction rolled back
        (.error .engineError, db, check ++ [.createTable table_name cols])
      else
        import_insert_json table_name (db.addTable table_name cols) data
          (check ++ [.createTable table_name cols]) db
    else
      import_insert_json table_name db data check db

/-- Shared tail of the CSV branch: read the live columns, keep the headers
that match (`valid_indices` / `valid_headers`), fail when none matches,
else run the loop and commit.  `dbOrig` is the committed state a rollback
restores. -/
def import_insert_csv (table_name : String) (db : DB)
    (headers : List String) (rows : List (List String))
    (pre : List Stmt) (dbOrig : DB) :
    OpResult Nat × DB × List Stmt :=
  let existing := existingCols db table_name
  let validPairs := validPairsOf existing headers
  let validIdx := validPairs.map Prod.fst
  let validHeaders := validPairs.map Prod.snd
  let pre2 := pre ++ [Stmt.pragmaTableInfo table_name]
  if validHeaders.isEmpty then
    -- `return {"status": "error", ...}` exits the with-block normally,
    -- so the context manager commits whatever state is pending
    (.error .noMatchingColumns, db, pre2)
  else
    match csvLoop table_name validIdx validHeaders rows db with
    | (.ok n db2, tr) => (.ok n, db2, pre2 ++ tr)
    | (.sqlError, tr) => (.error .engineError, dbOrig, pre2 ++ tr)
    | (.indexError, tr) => (.error .unexpected, dbOrig, pre2 ++ tr)

/-- The CSV import branch (source lines 448-480). -/
def import_csv_branch (table_name : String) (db : DB)
    (table_exists create_table : Bool) (cd : CsvParse) :
    OpResult Nat × DB × List Stmt :=
  let check := [Stmt.masterTableByName table_name]
  match cd with
  | .empty => (.error .unexpected, db, check)
  | .ok headers rows =>
    if !table_exists && create_table then
      if headers.isEmpty || !(distinctList headers) then
        (.error .engineError, db, check ++ [.createTable table_name headers])
      else
        import_insert_csv table_name (db.addTable table_name headers) headers rows
          (check ++ [.createTable table_name headers]) db
    else
      import_insert_csv table_name db headers rows check db

/-- `import_data(table_name, db_path, file_path, format, create_table)`
(source lines 372-495).  Returns the result record, the committed database
state after the call, and the statement trace.  Success means the explicit
`conn.commit()` at line 483 ran; error paths either return before any
mutation or roll back. -/
def import_data (table_name db_path : String) (db : DB) (file_exists : Bool)
    (format : String) (create_table : Bool) (jd : JsonParse) (cd : CsvParse) :
    OpResult Nat × DB × List Stmt :=
  if table_name = "" then (.error .invalidInput, db, [])
  else if db_path = "" then (.error .missingDbPath, db, [])
  else if !file_exists then (.error .fileNotFound, db, [])
  else if !(pyLower format == "csv" || pyLower format == "json") then
    (.error (.unsupportedFormat format), db, [])
  else
    let table_exists := (db.findTable table_name).isSome
    if !table_exists && !create_table then
      (.error (.tableNotFound table_name), db, [.masterTableByName table_name])
    else if pyLower format == "json" then
      import_json_branch table_name db table_exists create_table jd
    else
      import_csv_branch table_name db table_exists create_table cd

/-! ### `explain_table` and `smart_query` -/

/-- Payload of a successful `explain_table`. -/
structure ExplainPayload where
  row_count : Nat
  column_count : Nat
deriving Repr, DecidableEq

/-- `explain_table(table_name, db_path)` (source lines 1460-1589).  Its
not-found branch re-reads the catalog and attaches the available table
list; building the suggestion string indexes `available_tables[0]`, which
raises `IndexError` on an empty catalog, turning that case into an
unexpected-error record instead. -/
def explain_table (table_name db_path : String) (db : DB) :
    OpResult ExplainPayload × List Stmt :=
  if table_name = "" then (.error .invalidInput, [])
  else if db_path = "" then (.error .missingDbPath, [])
  else
    match db.findTable table_name with
    | none =>
        match db.tableNames with
        | [] => (.error .unexpected, [.masterTableByName table_name, .masterListTables])
        | ts => (.error (.tableNotFoundWithList table_name ts),
                 [.masterTableByName table_name, .masterListTables])
    | some t =>
        (.ok ⟨t.rows.length, t.columns.length⟩,
         [.masterTableByName table_name, .pragmaTableInfo table_name,
          .selectCount table_name, .selectAll table_name (some 3),
          .pragmaForeignKeys table_name])

/-- The fixed synonym table of `smart_query` (source lines 1242-1252),
in the dictionary's insertion order. -/
def table_keywords : List (String × List String) :=
  [("customer", ["customer", "customers", "client", "clients"]),
   ("order", ["order", "orders", "purchase", "purchases"]),
   ("product", ["product", "products", "item", "items"]),
   ("employee", ["employee", "employees", "staff", "worker"]),
   ("invoice", ["invoice", "invoices", "bill", "bills"]),
   ("track", ["track", "tracks", "song", "songs", "music"]),
   ("album", ["album", "albums"]),
   ("artist", ["artist", "artists", "band", "bands"]),
   ("genre", ["genre", "genres", "category", "categories"])]

/-- The table-matching loop of `smart_query` (source lines 1254-1268):
for each catalog table in order, first an exact substring match of the
lowercased table name inside the lowercased question, then the synonym
patterns; the first hit wins. -/
def findRelevant (question_lower : String) : List String → Option String
  | [] => none
  | tb :: rest =>
    let tl := pyLower tb
    if pyIn tl question_lower then some tb
    else if table_keywords.any (fun p =>
        (pyStartswith tl p.1 || pyIn p.1 tl) && p.2.any (fun kw => pyIn kw question_lower)) then
      some tb
    else findRelevant question_lower rest

/-- Query assembly of `smart_query` (source lines 1279-1290): a full scan
of the routed table, an optional fixed country/location predicate when the
question mentions Germany and the table has a matching column, and the
unconditional `LIMIT 50` cap. -/
def smart_query_sql (relevant : String) (question_lower : String) (lcols : List String) : String :=
  let base := "SELECT * FROM `" ++ relevant ++ "`"
  let q1 :=
    if pyIn "germany" question_lower || pyIn "german" question_lower then
      if lcols.contains "country" then base ++ " WHERE Country = 'Germany'"
      else if lcols.contains "location" then base ++ " WHERE Location LIKE '%Germany%'"
      else base
    else base
  q1 ++ " LIMIT 50"

/-- Payload of a successful `smart_query`: the routed table, the executed
query text, and the catalog enumeration. -/
structure SmartPayload where
  table_used : String
  query_executed : String
  available_tables : List String
deriving Repr, DecidableEq

/-- `smart_query(question, db_path)` (source lines 1205-1320). -/
def smart_query (question db_path : String) (db : DB) :
    OpResult SmartPayload × List Stmt :=
  if question = "" then (.error .invalidInput, [])
  else if db_path = "" then (.error .missingDbPath, [])
  else
    match db.tableNames with
    | [] => (.error .noTables, [.masterListTables])
    | t0 :: rest =>
        let tables := t0 :: rest
        let ql := pyLower question
        let relevant := (findRelevant ql tables).getD t0
        let lcols := match db.findTable relevant with
          | some tb => tb.columns.map (fun c => pyLower c.name)
          | none => []
        let q := smart_query_sql relevant ql lcols
        (.ok ⟨relevant, q, tables⟩,
         [.masterListTables, .pragmaTableInfo relevant, .smartSelect relevant q])

/-! ### Concrete fixtures

The two-table catalog of the specification's scenarios:
`Customer(Id, Name, Country)` and `Order(Id, CustomerId)`. -/

/-- The `Customer` table of the scenarios. -/
def customerTable : Table :=
  { name := "Customer",
    columns := [⟨"Id", "INTEGER", true, true⟩,
                ⟨"Name", "TEXT", true, false⟩,
                ⟨"Country", "TEXT", false, false⟩],
    rows := [[.int 1, .text "Anna", .text "Germany"],
             [.int 2, .text "Bob", .text "France"],
             [.int 3, .text "Carla", .text "Germany"]] }

/-- The `Order` table of the scenarios. -/
def orderTable : Table :=
  { name := "Order",
    columns := [⟨"Id", "INTEGER", true, true⟩,
                ⟨"CustomerId", "INTEGER", true, false⟩],
    rows := [[.int 10, .int 1]] }

/-- The scenario catalog `{Customer, Order}`. -/
def dbCO : DB :=
  { tables := [customerTable, orderTable], indexes := [], triggers := [] }

/-- A concrete engine for `execute_sql`: a successful reply independent of
the inputs. -/
def stepConstP (r : EngineReply) : String → List Value → DB → EngineReply :=
  fun _ _ _ => r

/-- A concrete engine for `query_database`: a successful reply independent
of the inputs. -/
def stepConstQ (r : EngineReply) : String → DB → EngineReply :=
  fun _ _ => r

/-- A concrete engine running `CREATE TABLE t (x TEXT)`: the table is
created and `cursor.rowcount` stays `-1`, as SQLite reports for DDL. -/
def stepCreateQ : String → DB → EngineReply :=
  fun _ db => .success (db.addTable "t" ["x"]) (-1) [] []

/-! ### Helper lemmas -/

lemma findTable_eq_none_of_not_mem (db : DB) (t : String) (h : t ∉ db.tableNames) :
    db.findTable t = none := by
  unfold DB.findTable
  rw [List.find?_eq_none]
  intro tb htb hbe
  exact h (by
    unfold DB.tableNames
    exact List.mem_map.mpr ⟨tb, htb, by simpa using hbe⟩)

lemma insertRow_name (t : Table) (cols : List String) (vals : List Value) :
    (t.insertRow cols vals).name = t.name := rfl

lemma insertRow_columns (t : Table) (cols : List String) (vals : List Value) :
    (t.insertRow cols vals).columns = t.columns := rfl

lemma insertRow_rows_length (t : Table) (cols : List String) (vals : List Value) :
    (t.insertRow cols vals).rows.length = t.rows.length + 1 := by
  unfold Table.insertRow
  simp

lemma find?_name_map (g : Table → Table) (hg : ∀ t, (g t).name = t.name) (n : String) :
    ∀ l : List Table,
      (l.map g).find? (fun t => t.name == n) = (l.find? (fun t => t.name == n)).map g := by
  intro l
  induction l with
  | nil => rfl
  | cons t ts ih =>
    rw [List.map_cons, List.find?_cons, List.find?_cons, hg t]
    cases h : (t.name == n) <;> simp [h, ih]

lemma insertInto_of_found (db : DB) (tname : String) (tbl : Table)
    (cols : List String) (vals : List Value)
    (htbl : db.findTable tname = some tbl)
    (hok : tbl.insertViolates cols vals = false) :
    db.insertInto tname cols vals = some (db.withInserted tname cols vals) := by
  unfold DB.insertInto
  rw [htbl]
  simp [hok]

lemma findTable_insertInto (db db' : DB) (tname : String)
    (cols : List String) (vals : List Value) (n : String)
    (h : db.insertInto tname cols vals = some db') :
    db'.findTable n =
      (db.findTable n).map
        (fun t => if t.name == tname then t.insertRow cols vals else t) := by
  unfold DB.insertInto at h
  cases htbl : db.findTable tname with
  | none => rw [htbl] at h; cases h
  | some tbl =>
    rw [htbl] at h
    by_cases hv : tbl.insertViolates cols vals
    · simp [hv] at h
    · simp only [hv, Bool.false_eq_true, if_false, Option.some.injEq] at h
      subst h
      unfold DB.withInserted DB.findTable
      exact find?_name_map
        (fun tb => if tb.name == tname then tb.insertRow cols vals else tb)
        (fun t => by
          by_cases ht : (t.name == tname) <;> simp [ht, insertRow_name]) n db.tables

lemma findTable_insertInto_self (db db' : DB) (tname : String) (tbl : Table)
    (cols : List String) (vals : List Value)
    (h : db.insertInto tname cols vals = some db')
    (htbl : db.findTable tname = some tbl) :
    db'.findTable tname = some (tbl.insertRow cols vals) := by
  have htbl' : db.tables.find? (fun t => t.name == tname) = some tbl := htbl
  have hname : tbl.name = tname := by simpa using List.find?_some htbl'
  rw [findTable_insertInto db db' tname cols vals tname h, htbl]
  simp [hname]

lemma rowCountOf_insertInto (db db' : DB) (tname : String) (tbl : Table)
    (cols : List String) (vals : List Value)
    (h : db.insertInto tname cols vals = some db')
    (htbl : db.findTable tname = some tbl) :
    db'.rowCountOf tname = db.rowCountOf tname + 1 := by
  unfold DB.rowCountOf
  rw [findTable_insertInto_self db db' tname tbl cols vals h htbl, htbl]
  simp [insertRow_rows_length]

lemma pkViolation_of_no_pk (t : Table) (cols : List String) (vals : List Value)
    (hpk : t.columns.all (fun c => !c.pk) = true) :
    pkViolation t cols vals = false := by
  unfold pkViolation pkVals
  have hfil : ∀ (r : List Value), (t.columns.zip r).filter (fun p => p.1.pk) = [] := by
    intro r
    refine List.filter_eq_nil_iff.mpr ?_
    rintro ⟨c, v⟩ hp
    have hc : c ∈ t.columns := (List.of_mem_zip hp).1
    have := List.all_eq_true.mp hpk c hc
    simpa using this
  simp [hfil]

/-- The reconciled mapping is nonempty: the row survives the skip test. -/
def keepsRow (ex : List String) (r : List (String × Value)) : Bool :=
  !(jsonFd ex r).isEmpty

/-- A successful run of the JSON insert loop: when the table carries no
primary key (so key uniqueness cannot fail) and no reconciled row leaves a
NOT NULL column NULL, every insert succeeds — the loop counts exactly the
rows with a nonempty reconciled mapping, submits exactly those inserts,
and grows the stored table by that count. -/
lemma jsonLoop_ok (tname : String) (ex : List String) (C : List Column)
    (hpk : C.all (fun c => !c.pk) = true)
    (data : List (List (String × Value))) :
    ∀ (db : DB) (t : Table), db.findTable tname = some t → t.columns = C →
      (∀ r ∈ data,
        notNullViolation C ((jsonFd ex r).map Prod.fst) ((jsonFd ex r).map Prod.snd)
          = false) →
      ∃ db2,
        jsonLoop tname ex data db
          = (.ok ((data.filter (keepsRow ex)).length) db2,
             (data.filter (keepsRow ex)).map
               (fun r => Stmt.insertRow tname ((jsonFd ex r).map Prod.fst)
                 ((jsonFd ex r).map Prod.snd)))
        ∧ db2.rowCountOf tname
            = db.rowCountOf tname + (data.filter (keepsRow ex)).length := by
  induction data with
  | nil => intro db t _ _ _; exact ⟨db, rfl, by simp⟩
  | cons row rest ih =>
    intro db t htbl hcols hnn
    cases hfd : (jsonFd ex row).isEmpty with
    | true =>
      obtain ⟨db2, heq, hrc⟩ :=
        ih db t htbl hcols (fun r hr => hnn r (List.mem_cons_of_mem row hr))
      have hfc : (row :: rest).filter (keepsRow ex) = rest.filter (keepsRow ex) := by
        simp [List.filter_cons, keepsRow, hfd]
      refine ⟨db2, ?_, ?_⟩
      · rw [hfc]
        simpa [jsonLoop, hfd] using heq
      · rw [hfc]
        exact hrc
    | false =>
      have hviol : t.insertViolates ((jsonFd ex row).map Prod.fst)
          ((jsonFd ex row).map Prod.snd) = false := by
        unfold Table.insertViolates
        rw [hcols, hnn row (List.mem_cons_self row rest),
          pkViolation_of_no_pk t _ _ (by rw [hcols]; exact hpk)]
        rfl
      have hins := insertInto_of_found db tname t _ _ htbl hviol
      have hfind := findTable_insertInto_self db _ tname t _ _ hins htbl
      obtain ⟨db2, heq, hrc⟩ :=
        ih _ (t.insertRow ((jsonFd ex row).map Prod.fst) ((jsonFd ex row).map Prod.snd))
          hfind (by rw [insertRow_columns]; exact hcols)
          (fun r hr => hnn r (List.mem_cons_of_mem row hr))
      have hcount := rowCountOf_insertInto db _ tname t _ _ hins htbl
      have hfc : (row :: rest).filter (keepsRow ex) = row :: rest.filter (keepsRow ex) := by
        simp [List.filter_cons, keepsRow, hfd]
      refine ⟨db2, ?_, ?_⟩
      · rw [hfc]
        simp [jsonLoop, hfd, hins, heq]
      · rw [hfc, hrc, hcount]
        simp
        omega

lemma selectIdx_isSome (row : List String) (idxs : List Nat)
    (h : ∀ i ∈ idxs, i < row.length) : ∃ vals, selectIdx row idxs = some vals := by
  induction idxs with
  | nil => exact ⟨[], rfl⟩
  | cons i is ih =>
    obtain ⟨vals, hvals⟩ := ih (fun j hj => h j (List.mem_cons_of_mem i hj))
    have hi : i < row.length := h i (List.mem_cons_self i is)
    have hv : row[i]? = some row[i] := List.getElem?_eq_getElem hi
    refine ⟨row[i] :: vals, ?_⟩
    simp [selectIdx, hv, hvals]

/-- A successful run of the CSV insert loop: when the table carries no
primary key, every non-empty row is long enough for the retained column
positions, and no projected row leaves a NOT NULL column NULL, the loop
counts exactly the non-empty rows, each submitted insert carries the valid
headers with the projected (text) cell values as bound parameters, and the
stored table grows by the count. -/
lemma csvLoop_ok (tname : String) (validIdx : List Nat) (validHeaders : List String)
    (C : List Column) (hpk : C.all (fun c => !c.pk) = true)
    (rows : List (List String)) :
    ∀ (db : DB) (t : Table), db.findTable tname = some t → t.columns = C →
      (∀ r ∈ rows, r.isEmpty = false → ∀ i ∈ validIdx, i < r.length) →
      (∀ r ∈ rows, r.isEmpty = false → ∀ vals, selectIdx r validIdx = some vals →
        notNullViolation C validHeaders (vals.map Value.text) = false) →
      ∃ db2 tr,
        csvLoop tname validIdx validHeaders rows db
          = (.ok ((rows.filter (fun r => !r.isEmpty)).length) db2, tr)
        ∧ tr.length = (rows.filter (fun r => !r.isEmpty)).length
        ∧ (∀ s ∈ tr, ∃ vals, s = Stmt.insertRow tname validHeaders vals)
        ∧ db2.rowCountOf tname
            = db.rowCountOf tname + (rows.filter (fun r => !r.isEmpty)).length := by
  induction rows with
  | nil => intro db t _ _ _ _; exact ⟨db, [], rfl, rfl, by simp, by simp⟩
  | cons row rest ih =>
    intro db t htbl hcols hsafe hnn
    cases hempty : row.isEmpty with
    | true =>
      obtain ⟨db2, tr, heq, hlen, hshape, hrc⟩ :=
        ih db t htbl hcols (fun r hr => hsafe r (List.mem_cons_of_mem row hr))
          (fun r hr => hnn r (List.mem_cons_of_mem row hr))
      have hfc : (row :: rest).filter (fun r => !r.isEmpty)
          = rest.filter (fun r => !r.isEmpty) := by
        simp [List.filter_cons, hempty]
      refine ⟨db2, tr, ?_, ?_, hshape, ?_⟩
      · rw [hfc]
        simpa [csvLoop, hempty] using heq
      · rw [hfc]
        exact hlen
      · rw [hfc]
        exact hrc
    | false =>
      obtain ⟨vals, hvals⟩ := selectIdx_isSome row validIdx
        (hsafe row (List.mem_cons_self row rest) hempty)
      have hviol : t.insertViolates validHeaders (vals.map Value.text) = false := by
        unfold Table.insertViolates
        rw [hcols, hnn row (List.mem_cons_self row rest) hempty vals hvals,
          pkViolation_of_no_pk t _ _ (by rw [hcols]; exact hpk)]
        rfl
      have hins := insertInto_of_found db tname t _ _ htbl hviol
      have hfind := findTable_insertInto_self db _ tname t _ _ hins htbl
      obtain ⟨db2, tr, heq, hlen, hshape, hrc⟩ :=
        ih _ (t.insertRow validHeaders (vals.map Value.text)) hfind
          (by rw [insertRow_columns]; exact hcols)
          (fun r hr => hsafe r (List.mem_cons_of_mem row hr))
          (fun r hr => hnn r (List.mem_cons_of_mem row hr))
      have hcount := rowCountOf_insertInto db _ tname t _ _ hins htbl
      have hfc : (row :: rest).filter (fun r => !r.isEmpty)
          = row :: rest.filter (fun r => !r.isEmpty) := by
        simp [List.filter_cons, hempty]
      refine ⟨db2, .insertRow tname validHeaders (vals.map Value.text) :: tr,
        ?_, ?_, ?_, ?_⟩
      · rw [hfc]
        simp [csvLoop, hempty, hvals, hins, heq]
      · rw [hfc]
        simp [hlen]
      · intro s hs
        rcases List.mem_cons.mp hs with h | h
        · exact ⟨vals.map Value.text, h⟩
        · exact hshape s h
      · rw [hfc, hrc, hcount]
        simp
        omega

/-- Validation gate of `list_columns`: an unknown table name yields an
error and a trace that never interpolates it. -/
lemma list_columns_gate (t p : String) (db : DB) (h : db.findTable t = none) :
    isError (list_columns t p db).1 = true
      ∧ traceAvoids (list_columns t p db).2 t = true := by
  unfold list_columns
  by_cases ht : t = "" <;> by_cases hp : p = "" <;>
    simp [ht, hp, h, isError, traceAvoids, Stmt.interpolated]

/-- Validation gate of `export_data`. -/
lemma export_data_gate (t p f : String) (lim : PyLimit) (db : DB)
    (h : db.findTable t = none) :
    isError (export_data t p f lim db).1 = true
      ∧ traceAvoids (export_data t p f lim db).2 t = true := by
  unfold export_data
  by_cases ht : t = "" <;> by_cases hp : p = "" <;>
    cases hf : (pyLower f == "csv" || pyLower f == "json") <;>
    simp [ht, hp, hf, h, isError, traceAvoids, Stmt.interpolated]

/-- Validation gate of `get_table_info`. -/
lemma get_table_info_gate (t p : String) (db : DB) (h : db.findTable t = none) :
    isError (get_table_info t p db).1 = true
      ∧ traceAvoids (get_table_info t p db).2 t = true := by
  unfold get_table_info
  by_cases ht : t = "" <;> by_cases hp : p = "" <;>
    simp [ht, hp, h, isError, traceAvoids, Stmt.interpolated]

/-- Validation gate of `show_table`. -/
lemma show_table_gate (t p : String) (db : DB) (h : db.findTable t = none) :
    isError (show_table t p db).1 = true
      ∧ traceAvoids (show_table t p db).2 t = true := by
  unfold show_table
  by_cases ht : t = "" <;> by_cases hp : p = "" <;>
    simp [ht, hp, h, isError, traceAvoids, Stmt.interpolated]

/-- Validation gate of `import_data` with `create_table=False`. -/
lemma import_data_gate (t p f : String) (fe : Bool) (jd : JsonParse) (cd : CsvParse)
    (db : DB) (h : db.findTable t = none) :
    isError (import_data t p db fe f false jd cd).1 = true
      ∧ traceAvoids (import_data t p db fe f false jd cd).2.2 t = true := by
  unfold import_data
  by_cases ht : t = "" <;> by_cases hp : p = "" <;> cases fe <;>
    cases hf : (pyLower f == "csv" || pyLower f == "json") <;>
    simp [ht, hp, hf, h, isError, traceAvoids, Stmt.interpolated]

/-- Validation gate of `list_indexes` with a (non-empty) table filter. -/
lemma list_indexes_gate (t p : String) (db : DB) (h : db.findTable t = none)
    (ht : t ≠ "") :
    isError (list_indexes p (some t) db).1 = true
      ∧ traceAvoids (list_indexes p (some t) db).2 t = true := by
  unfold list_indexes
  by_cases hp : p = "" <;>
    simp [hp, ht, h, isError, traceAvoids, Stmt.interpolated]

/-- Validation gate of `list_triggers` with a (non-empty) table filter. -/
lemma list_triggers_gate (t p : String) (db : DB) (h : db.findTable t = none)
    (ht : t ≠ "") :
    isError (list_triggers p (some t) db).1 = true
      ∧ traceAvoids (list_triggers p (some t) db).2 t = true := by
  unfold list_triggers
  by_cases hp : p = "" <;>
    simp [hp, ht, h, isError, traceAvoids, Stmt.interpolated]

/-! ### Claim theorems -/

/-- C1: for every caller-supplied table name `t` that does not match a
table in the catalog, each table-name-taking operation (`list_columns`,
`export_data`, `get_table_info`, `show_table`, `import_data` with
`create_table=False`, and `list_indexes`/`list_triggers` with a table
filter — an empty string is falsy in Python and therefore is no filter)
returns an error record, and `t` is never interpolated into the raw text
of any statement executed against the database: on these paths only the
parameterized existence check runs, which carries `t` as a bound
parameter. -/
theorem unknown_table_rejected_and_never_interpolated
    (t db_path format : String) (limit : PyLimit) (file_exists : Bool)
    (jd : JsonParse) (cd : CsvParse) (db : DB)
    (h : t ∉ db.tableNames) :
    (isError (list_columns t db_path db).1 = true
      ∧ traceAvoids (list_columns t db_path db).2 t = true)
    ∧ (isError (export_data t db_path format limit db).1 = true
      ∧ traceAvoids (export_data t db_path format limit db).2 t = true)
    ∧ (isError (get_table_info t db_path db).1 = true
      ∧ traceAvoids (get_table_info t db_path db).2 t = true)
    ∧ (isError (show_table t db_path db).1 = true
      ∧ traceAvoids (show_table t db_path db).2 t = true)
    ∧ (isError (import_data t db_path db file_exists format false jd cd).1 = true
      ∧ traceAvoids (import_data t db_path db file_exists format false jd cd).2.2 t = true)
    ∧ (t ≠ "" →
        isError (list_indexes db_path (some t) db).1 = true
        ∧ traceAvoids (list_indexes db_path (some t) db).2 t = true)
    ∧ (t ≠ "" →
        isError (list_triggers db_path (some t) db).1 = true
        ∧ traceAvoids (list_triggers db_path (some t) db).2 t = true) := by
  have hnone := findTable_eq_none_of_not_mem db t h
  exact ⟨list_columns_gate t db_path db hnone,
         export_data_gate t db_path format limit db hnone,
         get_table_info_gate t db_path db hnone,
         show_table_gate t db_path db hnone,
         import_data_gate t db_path format file_exists jd cd db hnone,
         fun ht => list_indexes_gate t db_path db hnone ht,
         fun ht => list_triggers_gate t db_path db hnone ht⟩

/-- Witness for C1 at the concrete name `"Ghost"` against the scenario
catalog. -/
theorem unknown_table_rejected_and_never_interpolated_witness :
    ("Ghost" ∉ dbCO.tableNames)
    ∧ ((isError (list_columns "Ghost" "test.db" dbCO).1 = true
        ∧ traceAvoids (list_columns "Ghost" "test.db" dbCO).2 "Ghost" = true)
      ∧ (isError (export_data "Ghost" "test.db" "csv" PyLimit.none dbCO).1 = true
        ∧ traceAvoids (export_data "Ghost" "test.db" "csv" PyLimit.none dbCO).2 "Ghost" = true)
      ∧ (isError (get_table_info "Ghost" "test.db" dbCO).1 = true
        ∧ traceAvoids (get_table_info "Ghost" "test.db" dbCO).2 "Ghost" = true)
      ∧ (isError (show_table "Ghost" "test.db" dbCO).1 = true
        ∧ traceAvoids (show_table "Ghost" "test.db" dbCO).2 "Ghost" = true)
      ∧ (isError (import_data "Ghost" "test.db" dbCO true "csv" false
            (JsonParse.ok []) (CsvParse.ok [] [])).1 = true
        ∧ traceAvoids (import_data "Ghost" "test.db" dbCO true "csv" false
            (JsonParse.ok []) (CsvParse.ok [] [])).2.2 "Ghost" = true)
      ∧ ("Ghost" ≠ "" →
          isError (list_indexes "test.db" (some "Ghost") dbCO).1 = true
          ∧ traceAvoids (list_indexes "test.db" (some "Ghost") dbCO).2 "Ghost" = true)
      ∧ ("Ghost" ≠ "" →
          isError (list_triggers "test.db" (some "Ghost") dbCO).1 = true
          ∧ traceAvoids (list_triggers "test.db" (some "Ghost") dbCO).2 "Ghost" = true)) :=
  ⟨by decide,
   unknown_table_rejected_and_never_interpolated "Ghost" "test.db" "csv" PyLimit.none
     true (JsonParse.ok []) (CsvParse.ok [] []) dbCO (by decide)⟩

/-- C2, counterexample: the statement `SELECT(1)` — valid SQLite, it
executes and returns one row — is treated as a read by `execute_sql`
(results fetched, no commit), yet its leading non-whitespace keyword is
`SELECT(1)`, not `SELECT`: the code performs a six-character prefix test,
not a keyword comparison. -/
theorem select_paren_treated_as_read_despite_word :
    (execute_sql "SELECT(1)" "test.db" []
        (stepConstP (.success dbCO (-1) ["(1)"] [[Value.int 1]])) dbCO).result
      = ExecResult.rows ["(1)"] [[Value.int 1]]
    ∧ (execute_sql "SELECT(1)" "test.db" []
        (stepConstP (.success dbCO (-1) ["(1)"] [[Value.int 1]])) dbCO).commits = 0
    ∧ pyUpper (leadingWord "SELECT(1)") ≠ "SELECT" := by
  refine ⟨by decide, by decide, by decide⟩

/-- C2, amended: a statement is treated as a read (results fetched, no
commit) by `execute_sql` and `query_database` if and only if its text,
stripped of surrounding whitespace and upper-cased, starts with the
six-character prefix `SELECT` (no word-boundary or keyword check); every
other statement that executes without error triggers exactly one commit. -/
theorem read_write_classification_rule
    (sql db_path : String) (params : List Value)
    (estep : String → List Value → DB → EngineReply)
    (qstep : String → DB → EngineReply) (db : DB)
    (ndb : DB) (rc : Int) (cols : List String) (rows : List (List Value))
    (ndb2 : DB) (rc2 : Int) (cols2 : List String) (rows2 : List (List Value))
    (hsql : sql ≠ "") (hdb : db_path ≠ "")
    (he : estep sql params db = .success ndb rc cols rows)
    (hq : qstep sql db = .success ndb2 rc2 cols2 rows2) :
    (pyStartswith (pyUpper (pyStrip sql)) "SELECT" = true →
      (execute_sql sql db_path params estep db).result = .rows cols rows
      ∧ (execute_sql sql db_path params estep db).commits = 0
      ∧ (query_database sql db_path qstep db).result = .rows cols2 rows2
      ∧ (query_database sql db_path qstep db).commits = 0)
    ∧ (pyStartswith (pyUpper (pyStrip sql)) "SELECT" = false →
      (execute_sql sql db_path params estep db).commits = 1
      ∧ (query_database sql db_path qstep db).commits = 1) := by
  unfold execute_sql query_database
  rw [he, hq]
  constructor
  · intro hsel
    simp [hsql, hdb, is_select, hsel]
  · intro hsel
    simp [hsql, hdb, is_select, hsel]

/-- Witness for the amended C2 at the statements `SELECT * FROM Customer`
and at a successful engine reply. -/
theorem read_write_classification_rule_witness :
    ("SELECT * FROM Customer" ≠ "" ∧ "test.db" ≠ ""
      ∧ pyStartswith (pyUpper (pyStrip "SELECT * FROM Customer")) "SELECT" = true)
    ∧ (execute_sql "SELECT * FROM Customer" "test.db" []
        (stepConstP (.success dbCO (-1) ["Id"] [[Value.int 1]])) dbCO).result
        = .rows ["Id"] [[Value.int 1]]
    ∧ (execute_sql "SELECT * FROM Customer" "test.db" []
        (stepConstP (.success dbCO (-1) ["Id"] [[Value.int 1]])) dbCO).commits = 0
    ∧ (query_database "SELECT * FROM Customer" "test.db"
        (stepConstQ (.success dbCO (-1) ["Id"] [[Value.int 1]])) dbCO).result
        = .rows ["Id"] [[Value.int 1]]
    ∧ (query_database "SELECT * FROM Customer" "test.db"
        (stepConstQ (.success dbCO (-1) ["Id"] [[Value.int 1]])) dbCO).commits = 0 :=
  ⟨⟨by decide, by decide, by decide⟩,
   (read_write_classification_rule "SELECT * FROM Customer" "test.db" []
      (stepConstP (.success dbCO (-1) ["Id"] [[Value.int 1]]))
      (stepConstQ (.success dbCO (-1) ["Id"] [[Value.int 1]])) dbCO
      dbCO (-1) ["Id"] [[Value.int 1]] dbCO (-1) ["Id"] [[Value.int 1]]
      (by decide) (by decide) rfl rfl).1 (by decide)⟩

/-- C3, counterexample: a DDL statement (`CREATE TABLE t (x TEXT)`, engine
rowcount `-1`) run through `query_database` yields a success record with
`rows_affected = -1` — an Affected result — not the Message-without-
`rows_affected` shape the claim requires for a reported count of `-1`.
(`execute_sql` does return Message there; `query_database` lines 1183-1187
have no `-1` case.) -/
theorem query_database_ddl_rowcount_counterexample :
    (query_database "CREATE TABLE t (x TEXT)" "test.db" stepCreateQ dbCO).result
      = ExecResult.affected (-1)
    ∧ ExecResult.affected (-1) ≠ ExecResult.message
    ∧ (query_database "CREATE TABLE t (x TEXT)" "test.db" stepCreateQ dbCO).commits = 1 := by
  refine ⟨by decide, by decide, by decide⟩

/-- C3, amended: for a write-classified statement that executes without
error, `execute_sql` returns an Affected record exactly when the engine's
modified-row count is not `-1` and a Message record (no `rows_affected`
field) when it is `-1`; `query_database` always returns an Affected record
carrying the engine's count, `-1` included. -/
theorem write_result_shapes
    (sql db_path : String) (params : List Value)
    (estep : String → List Value → DB → EngineReply)
    (qstep : String → DB → EngineReply) (db : DB)
    (ndb : DB) (rc : Int) (cols : List String) (rows : List (List Value))
    (ndb2 : DB) (rc2 : Int) (cols2 : List String) (rows2 : List (List Value))
    (hsql : sql ≠ "") (hdb : db_path ≠ "") (hw : is_select sql = false)
    (he : estep sql params db = .success ndb rc cols rows)
    (hq : qstep sql db = .success ndb2 rc2 cols2 rows2) :
    ((rc ≠ -1 → (execute_sql sql db_path params estep db).result = .affected rc)
      ∧ (rc = -1 → (execute_sql sql db_path params estep db).result = .message))
    ∧ (query_database sql db_path qstep db).result = .affected rc2 := by
  unfold execute_sql query_database
  rw [he, hq]
  refine ⟨⟨fun hrc => ?_, fun hrc => ?_⟩, ?_⟩
  · simp [hsql, hdb, hw, hrc]
  · simp [hsql, hdb, hw, hrc]
  · simp [hsql, hdb, hw]

/-- Witness for the amended C3 at a `DELETE` statement the engine reports
2 modified rows for, and the DDL statement of the counterexample's step
for `query_database`. -/
theorem write_result_shapes_witness :
    ("DELETE FROM Customer" ≠ "" ∧ "test.db" ≠ ""
      ∧ is_select "DELETE FROM Customer" = false ∧ (2 : Int) ≠ -1)
    ∧ (execute_sql "DELETE FROM Customer" "test.db" []
        (stepConstP (.success dbCO 2 [] [])) dbCO).result = .affected 2 := by
  refine ⟨⟨by decide, by decide, by decide, by decide⟩, ?_⟩
  exact (write_result_shapes "DELETE FROM Customer" "test.db" []
    (stepConstP (.success dbCO 2 [] [])) (stepConstQ (.success dbCO 2 [] [])) dbCO
    dbCO 2 [] [] dbCO 2 [] []
    (by decide) (by decide) (by decide) rfl rfl).1.1 (by decide)

/-- C8: a read-classified statement never mutates the committed state
(given that the engine's execution of a SELECT-classified statement leaves
the database unchanged, which is SQLite's behaviour for every statement
this classification can accept), and a successfully executing
write-classified statement commits exactly once per call — the explicit
`conn.commit()`; the context manager's exit commit finds no open
transaction.  On an engine error neither branch commits and the
transaction is rolled back. -/
theorem execute_sql_commit_discipline
    (sql db_path : String) (params : List Value)
    (estep : String → List Value → DB → EngineReply) (db : DB)
    (hsql : sql ≠ "") (hdb : db_path ≠ "")
    (hro : is_select sql = true →
      ∀ d rc cols rows, estep sql params db = .success d rc cols rows → d = db) :
    (is_select sql = true →
      (execute_sql sql db_path params estep db).committed = db
      ∧ (execute_sql sql db_path params estep db).commits = 0)
    ∧ (is_select sql = false →
      ∀ d rc cols rows, estep sql params db = .success d rc cols rows →
        (execute_sql sql db_path params estep db).commits = 1) := by
  unfold execute_sql
  cases hstep : estep sql params db with
  | failure msg =>
    constructor
    · intro _
      simp [hsql, hdb, hstep]
    · intro _ d rc cols rows hsucc
      cases hsucc
  | success d rc cols rows =>
    constructor
    · intro hsel
      have hd : d = db := hro hsel d rc cols rows hstep
      simp [hsql, hdb, hstep, hsel, hd]
    · intro hsel _ _ _ _ _
      simp [hsql, hdb, hstep, hsel]

/-- Witness for C8 at `SELECT 1` with a read-only engine reply. -/
theorem execute_sql_commit_discipline_witness :
    is_select "SELECT 1" = true
    ∧ (execute_sql "SELECT 1" "test.db" []
        (stepConstP (.success dbCO (-1) ["1"] [[Value.int 1]])) dbCO).committed = dbCO
    ∧ (execute_sql "SELECT 1" "test.db" []
        (stepConstP (.success dbCO (-1) ["1"] [[Value.int 1]])) dbCO).commits = 0 :=
  ⟨by decide,
   (execute_sql_commit_discipline "SELECT 1" "test.db" []
      (stepConstP (.success dbCO (-1) ["1"] [[Value.int 1]])) dbCO
      (by decide) (by decide)
      (fun _ d rc cols rows h => by cases h; rfl)).1 (by decide)⟩

/-- C5: an `import_data` call whose target table is absent and whose
`create_table` flag is `False` fails with the table-not-found error before
any data is loaded — the only statement executed is the parameterized
existence check — and the database state is unchanged. -/
theorem import_absent_table_without_create_fails
    (t db_path format : String) (db : DB) (jd : JsonParse) (cd : CsvParse)
    (h : t ∉ db.tableNames) (ht : t ≠ "") (hdb : db_path ≠ "")
    (hf : (pyLower format == "csv" || pyLower format == "json") = true) :
    import_data t db_path db true format false jd cd
      = (.error (.tableNotFound t), db, [.masterTableByName t]) := by
  have hnone := findTable_eq_none_of_not_mem db t h
  unfold import_data
  simp [ht, hdb, hf, hnone]

/-- Witness for C5 at `"Ghost"` against the scenario catalog. -/
theorem import_absent_table_without_create_fails_witness :
    ("Ghost" ∉ dbCO.tableNames ∧ "Ghost" ≠ "" ∧ "test.db" ≠ ""
      ∧ (pyLower "json" == "csv" || pyLower "json" == "json") = true)
    ∧ import_data "Ghost" "test.db" dbCO true "json" false
        (JsonParse.ok [[("Id", Value.int 7)]]) CsvParse.empty
      = (.error (.tableNotFound "Ghost"), dbCO, [.masterTableByName "Ghost"]) :=
  ⟨⟨by decide, by decide, by decide, by decide⟩,
   import_absent_table_without_create_fails "Ghost" "test.db" "json" dbCO
     (JsonParse.ok [[("Id", Value.int 7)]]) CsvParse.empty
     (by decide) (by decide) (by decide) (by decide)⟩

/-- C10: `export_data` on an existing table adds no `LIMIT` clause — and
exports every stored row — whenever the `limit` argument is `None`, not an
integer, or not strictly positive; only a strictly positive integer limit
produces a `LIMIT n` scan, and then at most `n` data rows are returned. -/
theorem export_limit_handling
    (t db_path format : String) (lim : PyLimit) (db : DB) (tbl : Table)
    (htbl : db.findTable t = some tbl) (ht : t ≠ "") (hdb : db_path ≠ "")
    (hf : (pyLower format == "csv" || pyLower format == "json") = true) :
    ((∀ n : Int, lim = PyLimit.int n → n ≤ 0) →
      export_data t db_path format lim db
        = (.ok ⟨tbl.columns.map Column.name, tbl.rows⟩,
           [.masterTableByName t, .selectAll t Option.none]))
    ∧ (∀ n : Int, lim = PyLimit.int n → 0 < n →
      export_data t db_path format lim db
        = (.ok ⟨tbl.columns.map Column.name, tbl.rows.take n.toNat⟩,
           [.masterTableByName t, .selectAll t (some n)])
      ∧ (tbl.rows.take n.toNat).length ≤ n.toNat) := by
  constructor
  · intro hnp
    have hnone : exportLimit lim = Option.none := by
      cases lim with
      | none => rfl
      | notInt => rfl
      | int n =>
        have := hnp n rfl
        simp only [exportLimit, ite_eq_right_iff]
        intro hpos
        omega
    unfold export_data
    simp [ht, hdb, hf, htbl, hnone]
  · intro n hn hpos
    subst hn
    have hsome : exportLimit (PyLimit.int n) = some n := by
      simp [exportLimit, hpos]
    constructor
    · unfold export_data
      simp [ht, hdb, hf, htbl, hsome]
    · simp [List.length_take_le]

/-- Witness for C10 at `Customer` with `limit=0` (no clause, all rows) and
`limit=2` (a `LIMIT 2` scan of at most two rows). -/
theorem export_limit_handling_witness :
    (dbCO.findTable "Customer" = some customerTable ∧ "Customer" ≠ "" ∧ "test.db" ≠ ""
      ∧ (pyLower "csv" == "csv" || pyLower "csv" == "json") = true)
    ∧ export_data "Customer" "test.db" "csv" (PyLimit.int 0) dbCO
        = (.ok ⟨customerTable.columns.map Column.name, customerTable.rows⟩,
           [.masterTableByName "Customer", .selectAll "Customer" Option.none])
    ∧ (export_data "Customer" "test.db" "csv" (PyLimit.int 2) dbCO
        = (.ok ⟨customerTable.columns.map Column.name, customerTable.rows.take 2⟩,
           [.masterTableByName "Customer", .selectAll "Customer" (some 2)])
      ∧ (customerTable.rows.take 2).length ≤ 2) :=
  ⟨⟨by decide, by decide, by decide, by decide⟩,
   (export_limit_handling "Customer" "test.db" "csv" (PyLimit.int 0) dbCO customerTable
      (by decide) (by decide) (by decide) (by decide)).1
     (fun n hn => by cases hn; omega),
   by
     have h := (export_limit_handling "Customer" "test.db" "csv" (PyLimit.int 2) dbCO
        customerTable (by decide) (by decide) (by decide) (by decide)).2 2 rfl (by omega)
     simpa using h⟩

/-- C6, counterexample: `list_columns("Ghost")` on the scenario catalog
returns the bare not-found error record, which carries no table
enumeration — the claim's "whenever" does not hold of every operation's
not-found path (lines 130-132 return only status and message). -/
theorem list_columns_notfound_counterexample :
    (list_columns "Ghost" "test.db" dbCO).1
      = OpResult.error (OpError.tableNotFound "Ghost")
    ∧ OpError.carriedTables (OpError.tableNotFound "Ghost") = Option.none := by
  refine ⟨by decide, by decide⟩

/-- C6, amended: only `explain_table`'s not-found error additionally
carries the current table enumeration (provided the catalog is non-empty;
on an empty catalog the suggestion-building `available_tables[0]` raises
and the record degrades to an unexpected error).  The scenario holds
there: describing `"Ghost"` on the `[Customer, Order]` catalog returns
not-found with that list attached. -/
theorem explain_table_notfound_carries_tables
    (t db_path : String) (db : DB)
    (h : t ∉ db.tableNames) (ht : t ≠ "") (hdb : db_path ≠ "")
    (hcat : db.tableNames ≠ []) :
    (explain_table t db_path db).1
      = OpResult.error (OpError.tableNotFoundWithList t db.tableNames)
    ∧ OpError.carriedTables (OpError.tableNotFoundWithList t db.tableNames)
      = some db.tableNames := by
  have hnone := findTable_eq_none_of_not_mem db t h
  refine ⟨?_, rfl⟩
  cases hc : db.tableNames with
  | nil => exact absurd hc hcat
  | cons a as =>
    unfold explain_table
    rw [hc]
    simp [ht, hdb, hnone, hc]

/-- Witness for the amended C6: the `describeTable("Ghost")` scenario on
the `[Customer, Order]` catalog. -/
theorem explain_table_notfound_carries_tables_witness :
    ("Ghost" ∉ dbCO.tableNames ∧ "Ghost" ≠ "" ∧ "test.db" ≠ ""
      ∧ dbCO.tableNames ≠ [])
    ∧ (explain_table "Ghost" "test.db" dbCO).1
        = OpResult.error (OpError.tableNotFoundWithList "Ghost" ["Customer", "Order"])
    ∧ OpError.carriedTables (OpError.tableNotFoundWithList "Ghost" ["Customer", "Order"])
        = some ["Customer", "Order"] :=
  ⟨⟨by decide, by decide, by decide, by decide⟩,
   explain_table_notfound_carries_tables "Ghost" "test.db" dbCO
     (by decide) (by decide) (by decide) (by decide)⟩

lemma smart_query_sql_capped (r ql : String) (lc : List String) :
    ∃ p, smart_query_sql r ql lc = p ++ " LIMIT 50" :=
  ⟨_, rfl⟩

/-- C7: on the catalog `{Customer(Id, Name, Country), Order(Id,
CustomerId)}`, the question `"show customers from Germany"` routes to
`Customer` with the predicate `Country = 'Germany'` appended, and — for
every question on every catalog — the executed query is capped with the
fixed `LIMIT 50` regardless of the question's wording. -/
theorem smart_query_germany_scenario :
    ((smart_query "show customers from Germany" "test.db" dbCO).1
      = OpResult.ok ⟨"Customer",
          "SELECT * FROM `Customer` WHERE Country = 'Germany' LIMIT 50",
          ["Customer", "Order"]⟩)
    ∧ (∀ (question db_path : String) (db : DB) (pl : SmartPayload),
        (smart_query question db_path db).1 = OpResult.ok pl →
        ∃ p, pl.query_executed = p ++ " LIMIT 50") := by
  constructor
  · decide
  · intro question db_path db pl h
    unfold smart_query at h
    by_cases hq : question = ""
    · simp [hq] at h
    by_cases hp : db_path = ""
    · simp [hq, hp] at h
    cases hc : db.tableNames with
    | nil => simp [hq, hp, hc] at h
    | cons a as =>
      simp only [hq, hp, hc, if_neg, if_false, reduceIte] at h
      rw [OpResult.ok.injEq] at h
      rw [← h]
      exact smart_query_sql_capped _ _ _

/-- Witness for C7: the capped query of the scenario. -/
theorem smart_query_germany_scenario_witness :
    ∃ p, ("SELECT * FROM `Customer` WHERE Country = 'Germany' LIMIT 50" : String)
      = p ++ " LIMIT 50" :=
  smart_query_germany_scenario.2 "show customers from Germany" "test.db" dbCO
    ⟨"Customer", "SELECT * FROM `Customer` WHERE Country = 'Germany' LIMIT 50",
     ["Customer", "Order"]⟩ smart_query_germany_scenario.1

/-- C9, counterexample: `list_tables` on the scenario catalog succeeds,
yet neither its success path nor its error path ever closes the
connection: `sqlite3`'s context manager only commits or rolls back on
exit, so the claim that the connection is closed/released before the
operation returns fails on every exit path. -/
theorem connection_not_closed_counterexample :
    (list_tables "test.db" dbCO false).1 = OpResult.ok ["Customer", "Order"]
    ∧ ConnEvent.closeConn ∉ (list_tables "test.db" dbCO false).2
    ∧ ConnEvent.closeConn ∉ (list_tables "test.db" dbCO true).2 := by
  refine ⟨by decide, by decide, by decide⟩

/-- C9, amended: each request opens exactly one connection and ends its
transaction on every exit path — a commit when the with-block exits
normally, a rollback when it exits with an exception — but the connection
object itself is not closed before the operation returns; it is released
only later, by garbage collection. -/
theorem connection_transaction_released
    (db_path : String) (db : DB) (engine_fails : Bool) (hdb : db_path ≠ "") :
    ((list_tables db_path db engine_fails).2
        = [ConnEvent.openConn, ConnEvent.commitTx]
      ∨ (list_tables db_path db engine_fails).2
        = [ConnEvent.openConn, ConnEvent.rollbackTx])
    ∧ ConnEvent.closeConn ∉ (list_tables db_path db engine_fails).2 := by
  unfold list_tables
  cases engine_fails <;> simp [hdb]

/-- Witness for the amended C9 on the success path. -/
theorem connection_transaction_released_witness :
    ("test.db" ≠ "")
    ∧ (((list_tables "test.db" dbCO false).2
          = [ConnEvent.openConn, ConnEvent.commitTx]
        ∨ (list_tables "test.db" dbCO false).2
          = [ConnEvent.openConn, ConnEvent.rollbackTx])
      ∧ ConnEvent.closeConn ∉ (list_tables "test.db" dbCO false).2) :=
  ⟨by decide, connection_transaction_released "test.db" dbCO false (by decide)⟩

/-- A constraint-free table of the kind `import_data` itself creates
(every column plain `TEXT`, no NOT NULL, no PRIMARY KEY), used to witness
the import reconciliation discipline on inputs whose inserts genuinely
succeed. -/
def leadsTable : Table :=
  { name := "Leads",
    columns := [⟨"Id", "TEXT", false, false⟩,
                ⟨"Name", "TEXT", false, false⟩,
                ⟨"Country", "TEXT", false, false⟩],
    rows := [] }

/-- A catalog holding only `leadsTable`. -/
def dbImport : DB :=
  { tables := [leadsTable], indexes := [], triggers := [] }

/-- JSON import against an existing table whose inserts all succeed (no
primary key, so key uniqueness cannot fail, and no reconciled row leaves a
NOT NULL column NULL): unmatched source fields are dropped, rows with an
empty reconciled mapping are skipped and not counted, the executed inserts
are exactly the reconciled rows (matched field names in the text, matched
values as bound parameters), and the reported count equals the number of
rows actually inserted. -/
lemma import_json_existing
    (t db_path : String) (db : DB) (tbl : Table) (create_table : Bool)
    (data : List (List (String × Value))) (cd : CsvParse)
    (htbl : db.findTable t = some tbl) (ht : t ≠ "") (hdb : db_path ≠ "")
    (hdata : data ≠ [])
    (hpk : tbl.columns.all (fun c => !c.pk) = true)
    (hnn : ∀ r ∈ data, notNullViolation tbl.columns
        ((jsonFd (tbl.columns.map Column.name) r).map Prod.fst)
        ((jsonFd (tbl.columns.map Column.name) r).map Prod.snd) = false) :
    (import_data t db_path db true "json" create_table (JsonParse.ok data) cd).1
      = OpResult.ok ((data.filter (keepsRow (tbl.columns.map Column.name))).length)
    ∧ (import_data t db_path db true "json" create_table (JsonParse.ok data) cd).2.2.filter
        Stmt.isInsert
      = (data.filter (keepsRow (tbl.columns.map Column.name))).map
          (fun r => Stmt.insertRow t
            ((jsonFd (tbl.columns.map Column.name) r).map Prod.fst)
            ((jsonFd (tbl.columns.map Column.name) r).map Prod.snd))
    ∧ ((import_data t db_path db true "json" create_table (JsonParse.ok data) cd).2.1).rowCountOf t
      = db.rowCountOf t
        + (data.filter (keepsRow (tbl.columns.map Column.name))).length := by
  have hde : data.isEmpty = false := by
    cases data with
    | nil => exact absurd rfl hdata
    | cons a l => rfl
  have hex : existingCols db t = tbl.columns.map Column.name := by
    unfold existingCols
    rw [htbl]
  have hc2 : (pyLower "json" == "csv" || pyLower "json" == "json") = true := by decide
  have hc3 : (pyLower "json" == "json") = true := by decide
  obtain ⟨db2, heq, hrc⟩ :=
    jsonLoop_ok t (tbl.columns.map Column.name) tbl.columns hpk data db tbl htbl rfl hnn
  have hred : import_data t db_path db true "json" create_table (JsonParse.ok data) cd
      = (OpResult.ok ((data.filter (keepsRow (tbl.columns.map Column.name))).length), db2,
         ([Stmt.masterTableByName t] ++ [Stmt.pragmaTableInfo t])
           ++ (data.filter (keepsRow (tbl.columns.map Column.name))).map
               (fun r => Stmt.insertRow t
                 ((jsonFd (tbl.columns.map Column.name) r).map Prod.fst)
                 ((jsonFd (tbl.columns.map Column.name) r).map Prod.snd))) := by
    unfold import_data import_json_branch import_insert_json
    simp [ht, hdb, hc2, hc3, htbl, hde, hex, heq]
  rw [hred]
  refine ⟨rfl, ?_, hrc⟩
  simp only [List.filter_append]
  simp [Stmt.isInsert, List.filter_map, Function.comp_def]

/-- CSV import against an existing table whose inserts all succeed:
header columns with no matching table column are dropped from every
insert, blank rows are skipped and not counted, every executed insert
carries the valid headers in its text and the projected cell values as
bound parameters, and the reported count equals the number of rows
actually inserted.  Requires at least one header to match (the source
errors otherwise), rows long enough for the retained positions (the
source raises `IndexError` otherwise), no primary key, and projected rows
that leave no NOT NULL column NULL (the source aborts with an
`IntegrityError` otherwise). -/
lemma import_csv_existing
    (t db_path : String) (db : DB) (tbl : Table) (create_table : Bool)
    (headers : List String) (rows : List (List String)) (jd : JsonParse)
    (htbl : db.findTable t = some tbl) (ht : t ≠ "") (hdb : db_path ≠ "")
    (hpk : tbl.columns.all (fun c => !c.pk) = true)
    (hvp : (validPairsOf (tbl.columns.map Column.name) headers).map Prod.snd ≠ [])
    (hsafe : ∀ r ∈ rows, r.isEmpty = false →
      ∀ i ∈ (validPairsOf (tbl.columns.map Column.name) headers).map Prod.fst,
        i < r.length)
    (hnn : ∀ r ∈ rows, r.isEmpty = false →
      ∀ vals, selectIdx r ((validPairsOf (tbl.columns.map Column.name) headers).map
          Prod.fst) = some vals →
        notNullViolation tbl.columns
          ((validPairsOf (tbl.columns.map Column.name) headers).map Prod.snd)
          (vals.map Value.text) = false) :
    (import_data t db_path db true "csv" create_table jd (CsvParse.ok headers rows)).1
      = OpResult.ok ((rows.filter (fun r => !r.isEmpty)).length)
    ∧ ((import_data t db_path db true "csv" create_table jd
          (CsvParse.ok headers rows)).2.2.filter Stmt.isInsert).length
      = (rows.filter (fun r => !r.isEmpty)).length
    ∧ (∀ s ∈ (import_data t db_path db true "csv" create_table jd
          (CsvParse.ok headers rows)).2.2.filter Stmt.isInsert,
        ∃ vals, s = Stmt.insertRow t
          ((validPairsOf (tbl.columns.map Column.name) headers).map Prod.snd) vals)
    ∧ ((import_data t db_path db true "csv" create_table jd
          (CsvParse.ok headers rows)).2.1).rowCountOf t
      = db.rowCountOf t + (rows.filter (fun r => !r.isEmpty)).length := by
  have hex : existingCols db t = tbl.columns.map Column.name := by
    unfold existingCols
    rw [htbl]
  have hc2 : (pyLower "csv" == "csv" || pyLower "csv" == "json") = true := by decide
  have hc3 : (pyLower "csv" == "json") = false := by decide
  obtain ⟨db2, tr, heq, hlen, hshape, hrc⟩ :=
    csvLoop_ok t
      ((validPairsOf (tbl.columns.map Column.name) headers).map Prod.fst)
      ((validPairsOf (tbl.columns.map Column.name) headers).map Prod.snd)
      tbl.columns hpk rows db tbl htbl rfl hsafe hnn
  have hvpe : ((validPairsOf (tbl.columns.map Column.name) headers).map Prod.snd).isEmpty
      = false := by
    cases hv : (validPairsOf (tbl.columns.map Column.name) headers).map Prod.snd with
    | nil => exact absurd hv hvp
    | cons a l => rfl
  have hred : import_data t db_path db true "csv" create_table jd (CsvParse.ok headers rows)
      = (OpResult.ok ((rows.filter (fun r => !r.isEmpty)).length), db2,
         ([Stmt.masterTableByName t] ++ [Stmt.pragmaTableInfo t]) ++ tr) := by
    unfold import_data import_csv_branch import_insert_csv
    simp [ht, hdb, hc2, hc3, htbl, hex, hvpe, heq]
    decide
  have htr : tr.filter Stmt.isInsert = tr :=
    List.filter_eq_self.mpr (fun s hs => by
      obtain ⟨vals, hv⟩ := hshape s hs
      rw [hv]
      rfl)
  rw [hred]
  refine ⟨rfl, ?_, ?_, ?_⟩
  · simp only [List.filter_append, htr]
    simp [Stmt.isInsert, hlen]
  · intro s hs
    simp only [List.filter_append, htr] at hs
    have hs' : s ∈ tr := by
      simp [Stmt.isInsert] at hs
      exact hs
    exact hshape s hs'
  · exact hrc

/-- A JSON import whose first kept record violates a NOT NULL constraint:
the insert raises, `import_data` returns the engine-error record, and the
context manager rolls the transaction back — the database is unchanged and
nothing is counted, exactly as the program behaves on an
`sqlite3.IntegrityError`. -/
lemma import_json_first_violation
    (t db_path : String) (db : DB) (tbl : Table) (create_table : Bool)
    (r0 : List (String × Value)) (rest : List (List (String × Value))) (cd : CsvParse)
    (htbl : db.findTable t = some tbl) (ht : t ≠ "") (hdb : db_path ≠ "")
    (hkeep : (jsonFd (tbl.columns.map Column.name) r0).isEmpty = false)
    (hviol : notNullViolation tbl.columns
        ((jsonFd (tbl.columns.map Column.name) r0).map Prod.fst)
        ((jsonFd (tbl.columns.map Column.name) r0).map Prod.snd) = true) :
    (import_data t db_path db true "json" create_table (JsonParse.ok (r0 :: rest)) cd).1
      = OpResult.error OpError.engineError
    ∧ (import_data t db_path db true "json" create_table
        (JsonParse.ok (r0 :: rest)) cd).2.1 = db := by
  have hex : existingCols db t = tbl.columns.map Column.name := by
    unfold existingCols
    rw [htbl]
  have hc2 : (pyLower "json" == "csv" || pyLower "json" == "json") = true := by decide
  have hc3 : (pyLower "json" == "json") = true := by decide
  have hviolates : tbl.insertViolates
      ((jsonFd (tbl.columns.map Column.name) r0).map Prod.fst)
      ((jsonFd (tbl.columns.map Column.name) r0).map Prod.snd) = true := by
    unfold Table.insertViolates
    rw [hviol]
    rfl
  have hins : db.insertInto t
      ((jsonFd (tbl.columns.map Column.name) r0).map Prod.fst)
      ((jsonFd (tbl.columns.map Column.name) r0).map Prod.snd) = none := by
    unfold DB.insertInto
    rw [htbl]
    simp [hviolates]
  have hloop : jsonLoop t (tbl.columns.map Column.name) (r0 :: rest) db
      = (.sqlError,
         [Stmt.insertRow t ((jsonFd (tbl.columns.map Column.name) r0).map Prod.fst)
           ((jsonFd (tbl.columns.map Column.name) r0).map Prod.snd)]) := by
    simp [jsonLoop, hkeep, hins]
  constructor <;>
    (unfold import_data import_json_branch import_insert_json
     simp [ht, hdb, hc2, hc3, htbl, hex, hloop])

/-- C4, counterexample: a CSV import into the existing `Customer` table
whose single source field `Foo` matches no table column does not drop the
field and skip the rows — it fails with the no-matching-columns error
(source lines 467-468), contradicting the claim that unmatched fields are
dropped without error and empty-mapping rows are silently skipped. -/
theorem csv_no_matching_columns_counterexample :
    (import_data "Customer" "test.db" dbCO true "csv" false
        (JsonParse.ok []) (CsvParse.ok ["Foo"] [["1"]])).1
      = OpResult.error OpError.noMatchingColumns
    ∧ isError (import_data "Customer" "test.db" dbCO true "csv" false
        (JsonParse.ok []) (CsvParse.ok ["Foo"] [["1"]])).1 = true := by
  refine ⟨by decide, by decide⟩

/-- C4, amended: against an existing target table, on inserts that satisfy
the table's constraints, a JSON import drops source fields whose names are
not among the table's columns without error, skips (and does not count)
rows whose reconciled mapping is empty, inserts every remaining row with
bound parameters for all values, and reports `rows_imported` equal to the
number of rows actually inserted (a nonempty record list is required; the
source rejects an empty one).  A CSV import likewise drops unmatched
header columns and skips blank rows under the same counting discipline,
except that when no header at all matches a table column it fails with a
no-matching-columns error, and a non-empty row shorter than a retained
column position fails the call with an `IndexError`.  An insert the engine
rejects (`IntegrityError`, e.g. a NOT NULL column left NULL) aborts
the import with an engine-error record, the transaction is rolled back:
the database is unchanged and nothing is reported imported — the final
conjunct proves this for a first-record NOT NULL violation.  The success
side is proved for tables without primary-key columns (where key
uniqueness cannot fail) under explicit per-row NOT-NULL-coverage
hypotheses.  The raw text of every insert statement is a function of the
table and column names only; the row values travel exclusively as bound
parameters. -/
theorem import_existing_table_reconciliation
    (t db_path : String) (db : DB) (tbl : Table) (create_table : Bool)
    (data : List (List (String × Value))) (cd : CsvParse)
    (headers : List String) (rows : List (List String)) (jd : JsonParse)
    (htbl : db.findTable t = some tbl) (ht : t ≠ "") (hdb : db_path ≠ "")
    (hdata : data ≠ [])
    (hpk : tbl.columns.all (fun c => !c.pk) = true)
    (hvp : (validPairsOf (tbl.columns.map Column.name) headers).map Prod.snd ≠ [])
    (hsafe : ∀ r ∈ rows, r.isEmpty = false →
      ∀ i ∈ (validPairsOf (tbl.columns.map Column.name) headers).map Prod.fst,
        i < r.length)
    (hnnJ : ∀ r ∈ data, notNullViolation tbl.columns
        ((jsonFd (tbl.columns.map Column.name) r).map Prod.fst)
        ((jsonFd (tbl.columns.map Column.name) r).map Prod.snd) = false)
    (hnnC : ∀ r ∈ rows, r.isEmpty = false →
      ∀ vals, selectIdx r ((validPairsOf (tbl.columns.map Column.name) headers).map
          Prod.fst) = some vals →
        notNullViolation tbl.columns
          ((validPairsOf (tbl.columns.map Column.name) headers).map Prod.snd)
          (vals.map Value.text) = false) :
    ((import_data t db_path db true "json" create_table (JsonParse.ok data) cd).1
        = OpResult.ok ((data.filter (keepsRow (tbl.columns.map Column.name))).length)
      ∧ (import_data t db_path db true "json" create_table
            (JsonParse.ok data) cd).2.2.filter Stmt.isInsert
        = (data.filter (keepsRow (tbl.columns.map Column.name))).map
            (fun r => Stmt.insertRow t
              ((jsonFd (tbl.columns.map Column.name) r).map Prod.fst)
              ((jsonFd (tbl.columns.map Column.name) r).map Prod.snd))
      ∧ ((import_data t db_path db true "json" create_table
            (JsonParse.ok data) cd).2.1).rowCountOf t
        = db.rowCountOf t
          + (data.filter (keepsRow (tbl.columns.map Column.name))).length)
    ∧ ((import_data t db_path db true "csv" create_table jd
            (CsvParse.ok headers rows)).1
        = OpResult.ok ((rows.filter (fun r => !r.isEmpty)).length)
      ∧ ((import_data t db_path db true "csv" create_table jd
            (CsvParse.ok headers rows)).2.2.filter Stmt.isInsert).length
        = (rows.filter (fun r => !r.isEmpty)).length
      ∧ (∀ s ∈ (import_data t db_path db true "csv" create_table jd
            (CsvParse.ok headers rows)).2.2.filter Stmt.isInsert,
          ∃ vals, s = Stmt.insertRow t
            ((validPairsOf (tbl.columns.map Column.name) headers).map Prod.snd) vals)
      ∧ ((import_data t db_path db true "csv" create_table jd
            (CsvParse.ok headers rows)).2.1).rowCountOf t
        = db.rowCountOf t + (rows.filter (fun r => !r.isEmpty)).length)
    ∧ (∀ (tn : String) (cs : List String) (v1 v2 : List Value),
        (Stmt.insertRow tn cs v1).rawText = (Stmt.insertRow tn cs v2).rawText
        ∧ (Stmt.insertRow tn cs v1).boundParams = v1)
    ∧ (∀ (r0 : List (String × Value)) (rest : List (List (String × Value))),
        (jsonFd (tbl.columns.map Column.name) r0).isEmpty = false →
        notNullViolation tbl.columns
          ((jsonFd (tbl.columns.map Column.name) r0).map Prod.fst)
          ((jsonFd (tbl.columns.map Column.name) r0).map Prod.snd) = true →
        (import_data t db_path db true "json" create_table
            (JsonParse.ok (r0 :: rest)) cd).1 = OpResult.error OpError.engineError
        ∧ (import_data t db_path db true "json" create_table
            (JsonParse.ok (r0 :: rest)) cd).2.1 = db) :=
  ⟨import_json_existing t db_path db tbl create_table data cd htbl ht hdb hdata hpk hnnJ,
   import_csv_existing t db_path db tbl create_table headers rows jd htbl ht hdb
     hpk hvp hsafe hnnC,
   fun _ _ _ _ => ⟨rfl, rfl⟩,
   fun r0 rest hkeep hviol =>
     import_json_first_violation t db_path db tbl create_table r0 rest cd
       htbl ht hdb hkeep hviol⟩

/-- Witness for the amended C4: against the constraint-free `Leads` table,
a JSON import of two records (one matching only on `Id`, one matching
nothing — skipped) and a CSV import with headers `[Foo, Id]` (only `Id`
retained) of one data row plus one blank row; each genuinely succeeding
call reports exactly one inserted row. -/
theorem import_existing_table_reconciliation_witness :
    (dbImport.findTable "Leads" = some leadsTable
      ∧ leadsTable.columns.all (fun c => !c.pk) = true
      ∧ (validPairsOf (leadsTable.columns.map Column.name)
          ["Foo", "Id"]).map Prod.snd ≠ [])
    ∧ (import_data "Leads" "test.db" dbImport true "json" false
        (JsonParse.ok [[("Id", Value.int 7), ("Zed", Value.text "x")],
          [("Qux", Value.int 1)]]) CsvParse.empty).1 = OpResult.ok 1
    ∧ (import_data "Leads" "test.db" dbImport true "csv" false
        (JsonParse.ok []) (CsvParse.ok ["Foo", "Id"] [["9", "7"], []])).1
      = OpResult.ok 1 :=
  ⟨⟨by decide, by decide, by decide⟩,
   (import_existing_table_reconciliation "Leads" "test.db" dbImport leadsTable false
      [[("Id", Value.int 7), ("Zed", Value.text "x")], [("Qux", Value.int 1)]]
      CsvParse.empty ["Foo", "Id"] [["9", "7"], []] (JsonParse.ok [])
      (by decide) (by decide) (by decide) (by decide) (by decide) (by decide)
      (by decide) (by decide)
      (by
        intro r hr hne vals hv
        rcases List.mem_cons.mp hr with rfl | hr2
        · have hcomp : selectIdx ["9", "7"]
              ((validPairsOf (leadsTable.columns.map Column.name)
                ["Foo", "Id"]).map Prod.fst) = some ["7"] := by decide
          rw [hcomp] at hv
          cases hv
          decide
        · rcases List.mem_cons.mp hr2 with rfl | hr3
          · simp at hne
          · cases hr3)).1.1,
   (import_existing_table_reconciliation "Leads" "test.db" dbImport leadsTable false
      [[("Id", Value.int 7), ("Zed", Value.text "x")], [("Qux", Value.int 1)]]
      CsvParse.empty ["Foo", "Id"] [["9", "7"], []] (JsonParse.ok [])
      (by decide) (by decide) (by decide) (by decide) (by decide) (by decide)
      (by decide) (by decide)
      (by
        intro r hr hne vals hv
        rcases List.mem_cons.mp hr with rfl | hr2
        · have hcomp : selectIdx ["9", "7"]
              ((validPairsOf (leadsTable.columns.map Column.name)
                ["Foo", "Id"]).map Prod.fst) = some ["7"] := by decide
          rw [hcomp] at hv
          cases hv
          decide
        · rcases List.mem_cons.mp hr2 with rfl | hr3
          · simp at hne
          · cases hr3)).2.1.1⟩

end SqliteMcp
